import Mathlib

/-!
Verification of the prompt-prototype orchestration service against its
specification.  The Python sources under `python/activator/` are shallowly
embedded: strings are `List Char`, machine integers are `Nat`/`Int`,
fallible code returns `Option`/`Except`, and `re` pattern matching is
embedded by a small prioritized backtracking matcher that mirrors the
semantics of the concrete patterns used by `raw.py`.
-/

set_option maxRecDepth 100000

/-- Python strings are embedded as lists of characters. -/
abbrev PyStr := List Char

/-! ## Decimal formatting and parsing

`raw.py` builds paths with f-strings that format non-negative integers in
decimal (`f"{detector}"`, `f"{seq_num:06d}"`), and parses them back with
`int(...)`.  `natStr` embeds decimal formatting, `parseDigits` embeds
`int()` restricted to non-empty all-digit strings (on anything else
`int()` raises `ValueError`, embedded as `none`). -/

/-- The decimal digit character for `n % 10`-style values (`0`-`9`). -/
def digitChar (n : Nat) : Char :=
  if n = 0 then '0' else if n = 1 then '1' else if n = 2 then '2'
  else if n = 3 then '3' else if n = 4 then '4' else if n = 5 then '5'
  else if n = 6 then '6' else if n = 7 then '7' else if n = 8 then '8'
  else '9'

/-- Worker for `natStr`; the fuel argument makes the recursion structural
(and hence kernel-computable) and is always sufficient when `n < fuel`. -/
def natStrAux : Nat → Nat → PyStr
  | 0, _ => []
  | fuel + 1, n =>
    if n < 10 then [digitChar n] else natStrAux fuel (n / 10) ++ [digitChar (n % 10)]

/-- Decimal rendering of a natural number, as produced by Python `str`. -/
def natStr (n : Nat) : PyStr := natStrAux (n + 1) n

/-- Zero-padded rendering to width 6, as produced by Python `f"{n:06d}"`. -/
def natStrPad6 (n : Nat) : PyStr :=
  List.replicate (6 - (natStr n).length) '0' ++ natStr n

/-- Numeric value of a digit string (helper for `parseDigits`). -/
def parseVal (s : PyStr) : Nat :=
  s.foldl (fun a c => 10 * a + (c.toNat - 48)) 0

/-- Python `int(...)` on a string: succeeds exactly on non-empty all-digit
strings (`ValueError`, i.e. `none`, otherwise; signs are never produced by
the paths considered here). -/
def parseDigits (s : PyStr) : Option Nat :=
  if s ≠ [] ∧ s.all Char.isDigit then some (parseVal s) else none

/-- Python `str.split(sep)` for a single-character separator. -/
def splitOnChar (c : Char) : PyStr → List PyStr
  | [] => [[]]
  | a :: s =>
    if a = c then [] :: splitOnChar c s
    else
      match splitOnChar c s with
      | t :: ts => (a :: t) :: ts
      | [] => [[a]]

/-! ## config.py : `PipelinesConfig` -/

/-- `os.path.basename`: the component after the last `/`. -/
def basenameOf (path : PyStr) : PyStr :=
  (splitOnChar '/' path).getLastD []

/-- Index (from the front) of the last occurrence of `c`, if any. -/
def lastIdxOf (c : Char) (s : PyStr) : Option Nat :=
  s.reverse.findIdx? (fun a => a = c) |>.map (fun i => s.length - 1 - i)

/-- `os.path.splitext(path)[0]` composed with `basename`: the stem used by
`PipelinesConfig._Spec._check_pipelines` as a pipeline identifier.
Leading dots of the basename do not start an extension. -/
def pipelineStem (path : PyStr) : PyStr :=
  let base := basenameOf path
  let lead := base.takeWhile (fun a => a = '.')
  let rest := base.drop lead.length
  match lastIdxOf '.' rest with
  | some i => lead ++ rest.take i
  | none => base

/-- The possible shapes of the `"pipelines"` value of a config node:
`None`, the string `"None"`, some other string, or a list of paths. -/
inductive PipeSpec where
  | noneVal : PipeSpec
  | noneStr : PipeSpec
  | strVal (s : PyStr) : PipeSpec
  | listVal (l : List PyStr) : PipeSpec
deriving DecidableEq

/-- A raw config node passed to `PipelinesConfig`: the `pipelines` value
and the optional `survey` constraint. -/
structure ConfigNode where
  pipelines : PipeSpec
  survey : Option PyStr
deriving DecidableEq

/-- `PipelinesConfig._Spec._parse_pipelines`.  `normalize` stands for
`os.path.abspath(os.path.expandvars(·))`, an environment-dependent
external function. -/
def parse_pipelines (normalize : PyStr → PyStr) : PipeSpec → Except PyStr (List PyStr)
  | .noneVal => .ok []
  | .noneStr => .ok []
  | .strVal _ => .error ("Pipelines spec must be list or None".toList)
  | .listVal l => .ok (l.map normalize)

/-- `PipelinesConfig._Spec._check_pipelines`: fails iff two paths in the
SAME list share a stem (the stem is used as a pipeline ID elsewhere). -/
def check_pipelines (pipelines : List PyStr) : Except PyStr Unit :=
  if (pipelines.map pipelineStem).Nodup then .ok () else
    .error ("Pipeline names must be unique".toList)

/-- The validated form of one config node (`PipelinesConfig._Spec`). -/
structure SpecNode where
  filenames : List PyStr
  survey : Option PyStr
deriving DecidableEq

/-- `PipelinesConfig._Spec.__init__`: parse the pipelines, check them,
keep the survey constraint (`_parse_survey` is the identity on the
`str`-or-`None` values modelled here). -/
def mkSpecNode (normalize : PyStr → PyStr) (node : ConfigNode) : Except PyStr SpecNode := do
  let fns ← parse_pipelines normalize node.pipelines
  let _ ← check_pipelines fns
  .ok ⟨fns, node.survey⟩

/-- `PipelinesConfig._expand_config`: validate every node in order,
propagating the first validation error. -/
def expand_config (normalize : PyStr → PyStr) : List ConfigNode →
    Except PyStr (List SpecNode)
  | [] => .ok []
  | node :: rest => do
    let s ← mkSpecNode normalize node
    let others ← expand_config normalize rest
    .ok (s :: others)

/-- `PipelinesConfig.__init__`: reject an empty config, then expand. -/
def PipelinesConfig.construct (normalize : PyStr → PyStr) (config : List ConfigNode) :
    Except PyStr (List SpecNode) :=
  if config.isEmpty then .error ("Must configure at least one pipeline.".toList)
  else expand_config normalize config

/-- The visit record fanned out to one detector
(`activator/visit.py`, `FannedOutVisit`); only the fields read by the
embedded code are kept. -/
structure FannedOutVisit where
  instrument : PyStr
  detector : Int
  groupId : PyStr
  nimages : Int
  filters : PyStr
  survey : PyStr
  private_sndStamp : Int
deriving DecidableEq

/-- `PipelinesConfig._Spec.matches`: an unconstrained node matches any
visit; otherwise the survey must agree. -/
def SpecNode.matchesVisit (s : SpecNode) (v : FannedOutVisit) : Bool :=
  match s.survey with
  | none => true
  | some sv => sv == v.survey

/-- `PipelinesConfig.get_pipeline_files`: first matching node wins;
`RuntimeError` if no node matches. -/
def get_pipeline_files (specs : List SpecNode) (v : FannedOutVisit) :
    Except PyStr (List PyStr) :=
  match specs.find? (fun n => n.matchesVisit v) with
  | some n => .ok n.filenames
  | none => .error ("Unsupported survey".toList)

/-! ## activator.py : the arrival-watcher loop of `next_visit_handler`

The loop (lines 182-220) polls a subscription for raw-arrival
notifications, deduplicates exposure ids in the Python set `expid_set`,
and stops either when the expected snap count is reached or when an empty
poll arrives after the timeout has elapsed. -/

/-- The visit class consumed by `activator.py` (`from .visit import Visit`;
the class itself is not under `src/`, its fields are modelled exactly as
the handler reads them: `instrument`, `detector`, `group`, `snaps`). -/
structure Visit where
  instrument : PyStr
  detector : Int
  group : PyStr
  snaps : Int
deriving DecidableEq

/-- The named groups of a `RAW_REGEXP` match for one notification
(`instrument, detector, group, snap, expid = m.groups()`); the numeric
groups are kept as the integers that `int()` produces from them. -/
structure RawGroups where
  instrument : PyStr
  detector : Int
  group : PyStr
  snap : Int
  expid : PyStr
deriving DecidableEq

/-- One `subscriber.pull` result: the elapsed wall-clock time
`end - start` observed right after the pull, and the per-message
`re.match(RAW_REGEXP, oid)` results (`none` for an unmatched object id). -/
structure Poll where
  elapsed : Nat
  messages : List (Option RawGroups)
deriving DecidableEq

/-- The relevance test applied to each matched notification
(`instrument == expected_visit.instrument and int(detector) == ... and
group == str(expected_visit.group) and int(snap) < int(...snaps)`). -/
def msg_matches (v : Visit) (g : RawGroups) : Bool :=
  g.instrument == v.instrument && g.detector == v.detector &&
    g.group == v.group && g.snap < v.snaps

/-- Process one poll batch: record the exposure id of every relevant
matched message into the id set (`expid_set.add(expid)`; `List.insert`
embeds Python set insertion, so duplicates are recorded once). -/
def record_batch (v : Visit) (ids : List PyStr) (msgs : List (Option RawGroups)) :
    List PyStr :=
  msgs.foldl (fun acc m =>
    match m with
    | some g => if msg_matches v g then acc.insert g.expid else acc
    | none => acc) ids

/-- The two exit states of the watcher loop. -/
inductive WatchExit where
  | complete : WatchExit
  | timedOut : WatchExit
deriving DecidableEq

/-- The `while len(expid_set) < expected_visit.snaps` loop.  The poll list
supplies the successive `subscriber.pull` results; `none` is returned if
it is exhausted while the loop would still be waiting (the real pull
would block for the next batch). -/
def wait_loop (v : Visit) (timeout : Nat) : List PyStr → List Poll →
    Option (WatchExit × List PyStr)
  | ids, [] =>
    if (ids.length : Int) ≥ v.snaps then some (.complete, ids) else none
  | ids, p :: rest =>
    if (ids.length : Int) ≥ v.snaps then some (.complete, ids)
    else if p.messages.isEmpty then
      if p.elapsed < timeout then wait_loop v timeout ids rest
      else some (.timedOut, ids)
    else wait_loop v timeout (record_batch v ids p.messages) rest

/-! ## activator.py : request validation in `next_visit_handler`

Lines 140-163: token check, envelope checks (explicit 400 responses) and
the `assert expected_visit.instrument == active_instrument.getName()`
statement, whose failure raises `AssertionError` out of the handler. -/

/-- The decoded next-visit envelope: whether `request.get_json()` produced
a dict, and the `"message"` entry with its decoded visit, if present. -/
structure Envelope where
  isDict : Bool
  message : Option Visit
deriving DecidableEq

/-- An inbound next-visit request: the `token` query argument and the
JSON envelope (`none` when `request.get_json()` is falsy). -/
structure InRequest where
  token : PyStr
  envelope : Option Envelope
deriving DecidableEq

/-- What the validation prologue of `next_visit_handler` does with a
request: an explicit `(message, status)` response, an uncaught
`AssertionError`, or fall-through into visit processing. -/
inductive HandlerOutcome where
  | response (msg : PyStr) (code : Nat) : HandlerOutcome
  | assertionError : HandlerOutcome
  | proceed (v : Visit) : HandlerOutcome
deriving DecidableEq

/-- The validation prologue of `next_visit_handler` (lines 140-163). -/
def next_visit_validate (verification_token : PyStr) (active_instrument : PyStr)
    (req : InRequest) : HandlerOutcome :=
  if req.token ≠ verification_token then .response ("Invalid request".toList) 400
  else
    match req.envelope with
    | none => .response ("Bad Request: no Pub/Sub message received".toList) 400
    | some env =>
      match env.isDict, env.message with
      | true, some v =>
        if v.instrument ≠ active_instrument then .assertionError else .proceed v
      | _, _ => .response ("Bad Request: invalid Pub/Sub message format".toList) 400

/-- The HTTP status the Flask app reports for each outcome: explicit
responses carry their code; an uncaught `AssertionError` is turned into a
500 server error by Flask (`@app.errorhandler(500)`); fall-through is not
a response (processing continues), recorded as 0 here. -/
def flask_status : HandlerOutcome → Nat
  | .response _ code => code
  | .assertionError => 500
  | .proceed _ => 0

/-! ## middleware_interface.py : `_filter_datasets` and the export steps -/

/-- The failure modes of a registry query, as far as `_filter_datasets`
distinguishes them: `DataIdValueError` versus anything else. -/
inductive QueryErr where
  | dataIdValueError : QueryErr
  | otherErr : QueryErr
deriving DecidableEq

/-- The failure modes of `_filter_datasets`: its own
`_MissingDatasetError`, or an exception propagated from a query. -/
inductive FilterErr where
  | missingDataset : FilterErr
  | raised (e : QueryErr) : FilterErr
deriving DecidableEq

/-- `_filter_datasets src_repo dest_repo`: the two `queryDatasets` calls
are supplied as their results.  The destination query runs first inside
`try/except DataIdValueError` (a failing destination is treated as
knowing nothing); source-side failures propagate; an empty source result
raises `_MissingDatasetError`; otherwise the result is the source
datasets not already known to the destination.
The source-side half is split out as `filter_datasets_src`. -/
def filter_datasets_src {α : Type} [DecidableEq α]
    (srcQ : Except QueryErr (List α)) (known : List α) :
    Except FilterErr (List α) :=
  match srcQ with
  | .error e => .error (.raised e)
  | .ok src =>
    if src.isEmpty then .error .missingDataset
    else .ok (src.filter (fun r => ¬ r ∈ known))

/-- `_filter_datasets src_repo dest_repo` proper: dispatch on the
destination query result first. -/
def filter_datasets {α : Type} [DecidableEq α]
    (srcQ : Except QueryErr (List α)) (destQ : Except QueryErr (List α)) :
    Except FilterErr (List α) :=
  match destQ with
  | .error .dataIdValueError => filter_datasets_src srcQ ([] : List α)
  | .error e => .error (.raised e)
  | .ok known => filter_datasets_src srcQ known

/-- A source/destination query pair with identical criteria, as issued by
the export helpers through `_filter_datasets`. -/
structure QueryPair (α : Type) where
  src : Except QueryErr (List α)
  dest : Except QueryErr (List α)

/-- Datasets are opaque to the export steps; only identity matters. -/
abbrev DS := Nat

/-- What one export step contributed to the transient export file:
saved datasets and saved collection names. -/
structure ExportAcc where
  datasets : List DS
  collections : List PyStr
deriving DecidableEq

/-- `MiddlewareInterface._export_skymap_and_templates`: export the skymap
set-difference (failures propagate), then try the template
set-difference; a `_MissingDatasetError` from the template query is
caught and logged (templates are optional), anything else propagates;
the template collection structure is exported in either case. -/
def export_skymap_and_templates (skymapQ templateQ : QueryPair DS)
    (template_collection : PyStr) : Except FilterErr ExportAcc :=
  match filter_datasets skymapQ.src skymapQ.dest with
  | .error e => .error e
  | .ok skymaps =>
    match filter_datasets templateQ.src templateQ.dest with
    | .ok templates => .ok ⟨skymaps ++ templates, [template_collection]⟩
    | .error .missingDataset => .ok ⟨skymaps, [template_collection]⟩
    | .error (.raised e) => .error (.raised e)

/-- `MiddlewareInterface._export_calibs`: the set-difference for the
`(detector, physical_filter)` calibration query; `_MissingDatasetError`
from an empty source query is NOT caught here and propagates. -/
def export_calibs (calibQ : QueryPair DS) : Except FilterErr (List DS) :=
  filter_datasets calibQ.src calibQ.dest

/-- The per-visit data staged by `prep_butler`. -/
structure PrepResult where
  refcats : List DS
  skymap_and_templates : ExportAcc
  calibs : List DS
deriving DecidableEq

/-- `MiddlewareInterface.prep_butler`: run the export sub-steps in order
(refcats, skymap+templates, calibs); any uncaught error aborts the
preparation. -/
def prep_butler (refcatQ skymapQ templateQ calibQ : QueryPair DS)
    (template_collection : PyStr) : Except FilterErr PrepResult := do
  let refcats ← filter_datasets refcatQ.src refcatQ.dest
  let st ← export_skymap_and_templates skymapQ templateQ template_collection
  let calibs ← export_calibs calibQ
  .ok ⟨refcats, st, calibs⟩

/-! ## Date-windowed calibration selection

`test_middleware_interface.py` imports `_filter_calibs_by_date` from
`activator.middleware_interface` and exercises a date-windowed
`_export_calibs`, but that code is not under `src/` (the
`middleware_interface.py` present there is the earlier, non-windowed
variant; its `_export_calibs` has a TODO noting that validity-range
filtering is not implemented).  The windowed variant is therefore
modelled from the spec. -/

/-- A calibration validity time range; `none` bounds are unbounded. -/
structure Timespan where
  beginT : Option Int
  endT : Option Int
deriving DecidableEq

/-- Membership of a timestamp in a half-open validity range. -/
def Timespan.containsT (ts : Timespan) (t : Int) : Bool :=
  (match ts.beginT with
   | none => true
   | some b => b ≤ t) &&
  (match ts.endT with
   | none => true
   | some e => t < e)

/-- A calibration dataset with its validity-range metadata; `none` means
the dataset has no validity range (an "unbounded" calibration). -/
structure CalibDataset where
  id : Nat
  validity : Option Timespan
deriving DecidableEq

/-- Modelled from the spec: `_filter_calibs_by_date` (referenced by
`test_filter_calibs_by_date_*` but not under `src/`) — keep exactly the
calibrations whose validity range contains the visit's observation
timestamp; datasets with no validity range always pass. -/
def filter_calibs_by_date (calibs : List CalibDataset) (t : Int) : List CalibDataset :=
  calibs.filter (fun c =>
    match c.validity with
    | none => true
    | some ts => ts.containsT t)

/-- Modelled from the spec: the date-windowed `_export_calibs` (the
variant exercised by `test_prep_butler_olddate` / `test_prep_butler_novalid`
but not under `src/`) — query the `(detector, filter)` set difference
(raising `_MissingDatasetError` only when the SOURCE query is empty),
then keep only the calibrations valid at the visit timestamp; an empty
valid-for-date set just skips the copy, without raising. -/
def export_calibs_windowed (calibQ : QueryPair CalibDataset) (t : Int) :
    Except FilterErr (List CalibDataset) :=
  (filter_datasets calibQ.src calibQ.dest).map (fun calibs => filter_calibs_by_date calibs t)

/-! ## Multi-pipeline fallback

`test_middleware_interface.py` mocks `MiddlewareInterface._get_pipeline_files`
and drives `run_pipeline` over a LIST of candidate pipelines
(`test_run_pipeline_fallback_*`), but the `middleware_interface.py` under
`src/` is the earlier variant with a single hard-coded pipeline
(`_get_pipeline_file`).  The fallback loop is therefore modelled from the
spec. -/

/-- Modelled from the spec: the candidate loop of the newer
`run_pipeline` (exercised by `test_run_pipeline_fallback_*` but not under
`src/`) — walk the configured candidates in priority order, compute each
task graph, and select the first candidate whose graph is non-empty. -/
def select_pipeline (graph_of : PyStr → List PyStr) : List PyStr → Option PyStr
  | [] => none
  | f :: rest => if (graph_of f).isEmpty then select_pipeline graph_of rest else some f

/-- Modelled from the spec: the outcome of the fallback `run_pipeline` —
execute exactly the selected pipeline, or fail with the no-data error
(`RuntimeError("No data to process.")`) when every candidate's graph is
empty. -/
def run_pipeline_fallback (graph_of : PyStr → List PyStr) (files : List PyStr) :
    Except PyStr PyStr :=
  match select_pipeline graph_of files with
  | some f => .ok f
  | none => .error ("No data to process.".toList)

/-! ## raw.py : a prioritized backtracking matcher for the two patterns

`raw.py` uses `re.match` with `LSST_REGEXP` and `OTHER_REGEXP`.  The
constructs those patterns use — literals, character classes, lazy and
greedy repetition, single-use capture groups, one backreference and a
`$` anchor — are embedded below with Python's leftmost-priority
backtracking semantics: a lazy repetition tries the shortest extent
first, a greedy one the longest, and `re.match` returns the captures of
the first overall success (anchored at the start, not at the end). -/

/-- Captured groups: group index paired with the captured text.  Entries
are prepended as groups match; lookup returns the most recent entry. -/
abbrev REnv := List (Nat × PyStr)

/-- Record a capture (no-op for an uncaptured repetition). -/
def envSet (env : REnv) : Option Nat → PyStr → REnv
  | none, _ => env
  | some i, v => (i, v) :: env

/-- Look up a captured group. -/
def envGet (env : REnv) (i : Nat) : Option PyStr :=
  (env.find? (fun p => p.1 == i)).map (fun p => p.2)

/-- One element of a pattern.  `star`/`plus` carry the repeated character
class, whether the repetition is lazy, and an optional capture index;
`grpFixed` is a capture group whose body is a fixed sequence of
single-character classes (no backtracking choice inside); `bref` is a
backreference; `eos` is the `$` anchor. -/
inductive RItem where
  | lit (c : Char) : RItem
  | cls (p : Char → Bool) : RItem
  | star (lazy : Bool) (p : Char → Bool) (cap : Option Nat) : RItem
  | plus (p : Char → Bool) (cap : Option Nat) : RItem
  | grpFixed (cap : Nat) (sub : List (Char → Bool)) : RItem
  | bref (i : Nat) : RItem
  | eos : RItem

/-- Lazy repetition: try the continuation on the text consumed so far,
then, on failure, consume one more class character and retry. -/
def lazyRun (p : Char → Bool) (attempt : PyStr → PyStr → Option REnv) :
    PyStr → PyStr → Option REnv
  | acc, [] =>
    match attempt acc [] with
    | some r => some r
    | none => none
  | acc, a :: s' =>
    match attempt acc (a :: s') with
    | some r => some r
    | none => if p a then lazyRun p attempt (acc ++ [a]) s' else none

/-- Greedy repetition: starting from the maximal run (held reversed in
`accRev`), try the continuation, then, on failure, give one character
back — but never shrink below `minLen` repetitions. -/
def greedyRun (attempt : PyStr → PyStr → Option REnv) (minLen : Nat) :
    PyStr → PyStr → Option REnv
  | [], s =>
    match attempt [] s with
    | some r => some r
    | none => none
  | a :: accRev', s =>
    match attempt (a :: accRev').reverse s with
    | some r => some r
    | none =>
      if accRev'.length + 1 ≤ minLen then none
      else greedyRun attempt minLen accRev' (a :: s)

/-- Consume a fixed sequence of single-character classes, returning the
consumed span and the rest. -/
def eatFixed : List (Char → Bool) → PyStr → Option (PyStr × PyStr)
  | [], s => some ([], s)
  | _ :: _, [] => none
  | p :: ps, a :: s =>
    if p a then (eatFixed ps s).map (fun pr => (a :: pr.1, pr.2)) else none

/-- `clsMatch ps w` holds when `w` has exactly the length of `ps` and each
character satisfies its class; a decidable description of what a
`grpFixed` consumes. -/
def clsMatch : List (Char → Bool) → PyStr → Bool
  | [], [] => true
  | p :: ps, a :: s => p a && clsMatch ps s
  | _, _ => false

/-- The backtracking matcher.  `k` is the success continuation receiving
the unconsumed rest and the captures; the first success in priority
order is returned. -/
def mrun : List RItem → PyStr → REnv → (PyStr → REnv → Option REnv) → Option REnv
  | [], s, env, k => k s env
  | .lit c :: rest, s, env, k =>
    match s with
    | [] => none
    | a :: s' => if a = c then mrun rest s' env k else none
  | .cls p :: rest, s, env, k =>
    match s with
    | [] => none
    | a :: s' => if p a then mrun rest s' env k else none
  | .star lz p cap :: rest, s, env, k =>
    if lz then
      lazyRun p (fun captured s' => mrun rest s' (envSet env cap captured) k) [] s
    else
      greedyRun (fun captured s' => mrun rest s' (envSet env cap captured) k) 0
        (s.takeWhile p).reverse (s.dropWhile p)
  | .plus p cap :: rest, s, env, k =>
    if (s.takeWhile p).isEmpty then none
    else
      greedyRun (fun captured s' => mrun rest s' (envSet env cap captured) k) 1
        (s.takeWhile p).reverse (s.dropWhile p)
  | .grpFixed cap sub :: rest, s, env, k =>
    match eatFixed sub s with
    | none => none
    | some (consumed, s') => mrun rest s' (envSet env (some cap) consumed) k
  | .bref i :: rest, s, env, k =>
    match envGet env i with
    | none => none
    | some v => if s.take v.length = v then mrun rest (s.drop v.length) env k else none
  | .eos :: rest, s, env, k =>
    match s with
    | [] => mrun rest s env k
    | _ :: _ => none

/-- `re.match(pattern, s)`: anchored at the start, free at the end;
returns the captures of the first match in priority order. -/
def re_match (pat : List RItem) (s : PyStr) : Option REnv :=
  mrun pat s [] (fun _ env => some env)

/-- The character classes of the `raft_sensor` group `R\d\d_S.\d`. -/
def RAFT_SENSOR_CLS : List (Char → Bool) :=
  [fun c => c = 'R', Char.isDigit, Char.isDigit,
   fun c => c = '_', fun c => c = 'S', fun c => c != '\n', Char.isDigit]

/-- `LSST_REGEXP`; group indices: 1 `instrument`, 2 `day_obs`,
3 `obs_id`, 4 `raft_sensor`.  The `extension` group `(\.f.*)` only wraps
a choice-free tail before `$` and its capture is unused by
`get_exp_id_from_oid`, so it is embedded uncaptured. -/
def LSST_REGEXP : List RItem :=
  [ .star true (fun c => c != '\n') (some 1), .lit '/',
    .plus Char.isDigit (some 2), .lit '/',
    .star true (fun c => c != '\n') (some 3), .lit '/',
    .bref 3, .lit '_',
    .grpFixed 4 RAFT_SENSOR_CLS,
    .lit '.', .lit 'f', .star false (fun c => c != '\n') none,
    .eos ]

/-- `OTHER_REGEXP`; group indices: 1 `instrument`, 2 `detector`,
3 `group`, 4 `snap`, 5 `expid`, 6 `filter`. -/
def OTHER_REGEXP : List RItem :=
  [ .star true (fun c => c != '\n') (some 1), .lit '/',
    .plus Char.isDigit (some 2), .lit '/',
    .star true (fun c => c != '\n') (some 3), .lit '/',
    .plus Char.isDigit (some 4), .lit '/',
    .star true (fun c => c != '\n') (some 5), .lit '/',
    .star true (fun c => c != '\n') (some 6), .lit '/',
    .plus (fun c => c != '/') none, .lit '.', .lit 'f' ]

/-! ## raw.py : camera tables and path codec -/

/-- `_LSST_CAMERA_LIST`. -/
def LSST_CAMERA_LIST : List PyStr :=
  ["LATISS".toList, "ComCam".toList, "LSSTComCam".toList, "LSSTCam".toList,
   "TS8".toList, "LSST-TS8".toList]

/-- `_TRANSLATE_INSTRUMENT.get(instrument, instrument)`. -/
def TRANSLATE_INSTRUMENT (instrument : PyStr) : PyStr :=
  if instrument = "ComCam".toList then "LSSTComCam".toList
  else if instrument = "TS8".toList then "LSST-TS8".toList
  else instrument

/-- `_CAMERA_ABBREV` (a `KeyError` on a missing key is `none`). -/
def CAMERA_ABBREV (instrument : PyStr) : Option PyStr :=
  if instrument = "LATISS".toList then some ("AT".toList)
  else if instrument = "LSSTComCam".toList then some ("CC".toList)
  else if instrument = "LSSTCam".toList then some ("MC".toList)
  else if instrument = "LSST-TS8".toList then some ("TS".toList)
  else none

/-- `f"{raft}_S{x}{y}"` for numeric sensor coordinates. -/
def rsName (raft : PyStr) (x y : Nat) : PyStr :=
  raft ++ '_' :: 'S' :: natStr x ++ natStr y

/-- `f"{raft}_S{x}{y}"` for the corner-raft letter coordinates. -/
def rsNameC (raft : PyStr) (x : Char) (y : Nat) : PyStr :=
  raft ++ '_' :: 'S' :: x :: natStr y

/-- `_LSSTCAM_RAFTS`. -/
def LSSTCAM_RAFTS : List (PyStr × Nat) :=
  [("R01".toList, 0), ("R02".toList, 1), ("R03".toList, 2),
   ("R10".toList, 3), ("R11".toList, 4), ("R12".toList, 5), ("R13".toList, 6),
   ("R14".toList, 7),
   ("R20".toList, 8), ("R21".toList, 9), ("R22".toList, 10), ("R23".toList, 11),
   ("R24".toList, 12),
   ("R30".toList, 13), ("R31".toList, 14), ("R32".toList, 15), ("R33".toList, 16),
   ("R34".toList, 17),
   ("R41".toList, 18), ("R42".toList, 19), ("R43".toList, 20)]

/-- `_LSSTCAM_CORNER_RAFTS`. -/
def LSSTCAM_CORNER_RAFTS : List (PyStr × Nat) :=
  [("R00".toList, 189), ("R04".toList, 193), ("R40".toList, 197), ("R44".toList, 201)]

/-- The single-raft sensor table shared by LSSTComCam and LSST-TS8. -/
def DETECTOR_FROM_RS_R22 : List (PyStr × Nat) :=
  (List.range 3).flatMap (fun x =>
    (List.range 3).map (fun y => (rsName ("R22".toList) x y, x * 3 + y)))

/-- The LSSTCam science-raft sensor table. -/
def DETECTOR_FROM_RS_LSSTCAM_SCIENCE : List (PyStr × Nat) :=
  LSSTCAM_RAFTS.flatMap (fun rp =>
    (List.range 3).flatMap (fun x =>
      (List.range 3).map (fun y => (rsName rp.1 x y, rp.2 * 9 + x * 3 + y))))

/-- The LSSTCam corner-raft (guider/wavefront) sensor table. -/
def DETECTOR_FROM_RS_LSSTCAM_CORNER : List (PyStr × Nat) :=
  LSSTCAM_CORNER_RAFTS.flatMap (fun rp =>
    (['G', 'W'] : List Char).flatMap (fun x =>
      (List.range 2).map (fun y =>
        (rsNameC rp.1 x y, rp.2 + (if x = 'G' then 0 else 2) + y))))

/-- `_DETECTOR_FROM_RS`: raft/sensor name to detector number, per camera;
an unknown camera name gives the empty table (`KeyError` on lookup). -/
def DETECTOR_FROM_RS (instrument : PyStr) : List (PyStr × Nat) :=
  if instrument = "LATISS".toList then [("R00_S00".toList, 0)]
  else if instrument = "LSSTComCam".toList then DETECTOR_FROM_RS_R22
  else if instrument = "LSST-TS8".toList then DETECTOR_FROM_RS_R22
  else if instrument = "LSSTCam".toList then
    DETECTOR_FROM_RS_LSSTCAM_SCIENCE ++ DETECTOR_FROM_RS_LSSTCAM_CORNER
  else []

/-- `_DETECTOR_FROM_INT`: the inverse lookup (detector numbers are
distinct within each camera, so the first hit is the only hit). -/
def DETECTOR_FROM_INT (instrument : PyStr) (detector : Nat) : Option PyStr :=
  ((DETECTOR_FROM_RS instrument).find? (fun pr => pr.2 == detector)).map (fun pr => pr.1)

/-- The shape every raft/sensor name in the camera tables has: it matches
the `raft_sensor` classes exactly and contains no `/` or newline. -/
def rsOk (rs : PyStr) : Bool :=
  clsMatch RAFT_SENSOR_CLS rs && rs.all (fun c => c != '/' && c != '\n')

/-- The file-name part of a non-LSST raw path
(`f"{instrument}-{group}-{snap}-{exposure_id}-{filter}-{detector}.fz"`). -/
def other_fname (instrument : PyStr) (group : PyStr) (snap exposure_id : Nat)
    (filter : PyStr) (detector : Nat) : PyStr :=
  instrument ++ '-' :: group ++ '-' :: natStr snap ++ '-' :: natStr exposure_id ++
    '-' :: filter ++ '-' :: natStr detector ++ '.' :: 'f' :: 'z' :: []

/-- The full non-LSST raw path produced by `get_raw_path`. -/
def other_path (instrument : PyStr) (detector : Nat) (group : PyStr)
    (snap exposure_id : Nat) (filter : PyStr) : PyStr :=
  instrument ++ '/' :: natStr detector ++ '/' :: group ++ '/' :: natStr snap ++
    '/' :: natStr exposure_id ++ '/' :: filter ++
    '/' :: other_fname instrument group snap exposure_id filter detector

/-- `f"{abbrev}_O_{day_obs}_{seq_num:06d}"`. -/
def lsst_obs_id (ab : PyStr) (day_obs seq_num : Nat) : PyStr :=
  ab ++ '_' :: 'O' :: '_' :: natStr day_obs ++ '_' :: natStrPad6 seq_num

/-- The full LSST raw path produced by `get_raw_path`
(`f"{instrument}/{day_obs}/{obs_id}/{obs_id}_{raft_sensor}.fits"`). -/
def lsst_path (instrument : PyStr) (day_obs : Nat) (obs_id raft_sensor : PyStr) : PyStr :=
  instrument ++ '/' :: natStr day_obs ++ '/' :: obs_id ++ '/' :: obs_id ++
    '_' :: raft_sensor ++ '.' :: 'f' :: 'i' :: 't' :: 's' :: []

/-- `get_raw_path`.  The LSST branch performs two dict lookups that raise
`KeyError` for unknown instruments or detectors, hence `Option`. -/
def get_raw_path (instrument : PyStr) (detector : Nat) (group : PyStr)
    (snap exposure_id : Nat) (filter : PyStr) : Option PyStr :=
  if ¬ instrument ∈ LSST_CAMERA_LIST then
    some (other_path instrument detector group snap exposure_id filter)
  else
    match CAMERA_ABBREV instrument, DETECTOR_FROM_INT instrument detector with
    | some ab, some rs =>
      some (lsst_path instrument (exposure_id / 100000)
        (lsst_obs_id ab (exposure_id / 100000) (exposure_id % 100000)) rs)
    | _, _ => none

/-- `oid.split("/", maxsplit=1)`: the leading path component; raises
(`none`) when the path has no separator. -/
def first_component (oid : PyStr) : Option PyStr :=
  if '/' ∈ oid then some (oid.takeWhile (fun c => c != '/')) else none

/-- `get_exp_id_from_oid`: decode an exposure id from a path; all the
`ValueError`/failed-match exits are `none`. -/
def get_exp_id_from_oid (oid : PyStr) : Option Nat :=
  match first_component oid with
  | none => none
  | some instrument =>
    if ¬ instrument ∈ LSST_CAMERA_LIST then
      match re_match OTHER_REGEXP oid with
      | some m => (envGet m 5).bind parseDigits
      | none => none
    else
      match re_match LSST_REGEXP oid with
      | some m =>
        match envGet m 3 with
        | none => none
        | some obs_id =>
          match splitOnChar '_' obs_id with
          | [_, _, day_obs, seq_num] =>
            match parseDigits day_obs, parseDigits seq_num with
            | some d, some sq => some (d * 100000 + sq)
            | _, _ => none
          | _ => none
      | none => none

/-- `get_group_id_from_oid`, non-LSST branch.  The LSST branch reads a
sidecar JSON file from the image bucket (I/O) and is not modelled;
it is `none` here. -/
def get_group_id_from_oid (oid : PyStr) : Option PyStr :=
  match first_component oid with
  | none => none
  | some instrument =>
    if ¬ instrument ∈ LSST_CAMERA_LIST then
      match re_match OTHER_REGEXP oid with
      | some m => envGet m 3
      | none => none
    else none

/-- `is_path_consistent`.  In the source a path without `/` or a raft
lookup miss raise; both are `false` here (those paths are never reached
by the claims, which concern well-formed paths). -/
def is_path_consistent (oid : PyStr) (v : FannedOutVisit) : Bool :=
  match first_component oid with
  | none => false
  | some instrument =>
    if ¬ instrument ∈ LSST_CAMERA_LIST then
      match re_match OTHER_REGEXP oid with
      | some m =>
        match envGet m 1, (envGet m 2).bind parseDigits,
              envGet m 3, (envGet m 4).bind parseDigits with
        | some gi, some gd, some gg, some gs =>
          gi == v.instrument && ((gd : Int) == v.detector) && gg == v.groupId &&
            (((gs : Int) < v.nimages) || (v.nimages == 0))
        | _, _, _, _ => false
      | none => false
    else
      let tr := TRANSLATE_INSTRUMENT instrument
      match re_match LSST_REGEXP oid with
      | some m =>
        match (envGet m 4).bind (fun rsn =>
            ((DETECTOR_FROM_RS tr).find? (fun pr => pr.1 == rsn)).map (fun pr => pr.2)) with
        | some det => tr == v.instrument && ((det : Int) == v.detector)
        | none => false
      | none => false


/-! ## Lemmas: decimal rendering and parsing -/

/-- A field with neither separator nor newline, fit for a lazy group
followed by `/`. -/
def cleanField (w : PyStr) : Prop := ∀ c ∈ w, c ≠ '/' ∧ c ≠ '\n'

theorem digitChar_isDigit (n : Nat) : (digitChar n).isDigit = true := by
  unfold digitChar
  split <;> try decide
  split <;> try decide
  split <;> try decide
  split <;> try decide
  split <;> try decide
  split <;> try decide
  split <;> try decide
  split <;> try decide
  split <;> decide

theorem isDigit_ne_slash {c : Char} (h : c.isDigit = true) : c ≠ '/' := by
  intro he; subst he; simp [Char.isDigit] at h

theorem isDigit_ne_nl {c : Char} (h : c.isDigit = true) : c ≠ '\n' := by
  intro he; subst he; simp [Char.isDigit] at h

theorem isDigit_ne_uscore {c : Char} (h : c.isDigit = true) : c ≠ '_' := by
  intro he; subst he; simp [Char.isDigit] at h

theorem natStrAux_all_digit : ∀ (fuel n : Nat),
    (natStrAux fuel n).all Char.isDigit = true
  | 0, _ => rfl
  | fuel + 1, n => by
    rw [natStrAux]
    split
    · simp [digitChar_isDigit]
    · simp [List.all_append, natStrAux_all_digit fuel (n / 10), digitChar_isDigit]

theorem natStr_all_digit (n : Nat) : (natStr n).all Char.isDigit = true :=
  natStrAux_all_digit (n + 1) n

theorem natStr_ne_nil (n : Nat) : natStr n ≠ [] := by
  rw [natStr, natStrAux]
  split
  · simp
  · simp

theorem natStr_clean (n : Nat) : cleanField (natStr n) := by
  intro c hc
  have hd : c.isDigit = true := by
    have := natStr_all_digit n
    rw [List.all_eq_true] at this
    exact this c hc
  exact ⟨isDigit_ne_slash hd, isDigit_ne_nl hd⟩

theorem natStr_no_uscore (n : Nat) : ∀ c ∈ natStr n, c ≠ '_' := by
  intro c hc
  have hd : c.isDigit = true := by
    have := natStr_all_digit n
    rw [List.all_eq_true] at this
    exact this c hc
  exact isDigit_ne_uscore hd

theorem digitChar_val {n : Nat} (h : n < 10) : (digitChar n).toNat - 48 = n := by
  interval_cases n <;> decide

theorem parseVal_append_digit (l : PyStr) (c : Char) :
    parseVal (l ++ [c]) = 10 * parseVal l + (c.toNat - 48) := by
  simp [parseVal, List.foldl_append]

theorem parseVal_natStrAux : ∀ (fuel n : Nat), n < fuel →
    parseVal (natStrAux fuel n) = n
  | 0, _, h => by omega
  | fuel + 1, n, h => by
    rw [natStrAux]
    split
    · rename_i h10
      simp [parseVal, digitChar_val h10]
    · rename_i h10
      have hlt : n / 10 < fuel := by
        have : n / 10 < n := Nat.div_lt_self (by omega) (by norm_num)
        omega
      rw [parseVal_append_digit, parseVal_natStrAux fuel (n / 10) hlt,
          digitChar_val (Nat.mod_lt n (by norm_num))]
      omega

theorem parseVal_natStr (n : Nat) : parseVal (natStr n) = n :=
  parseVal_natStrAux (n + 1) n (by omega)

theorem parseDigits_natStr (n : Nat) : parseDigits (natStr n) = some n := by
  rw [parseDigits, if_pos ⟨natStr_ne_nil n, natStr_all_digit n⟩, parseVal_natStr]

theorem parseVal_zeros (k : Nat) (l : PyStr) :
    parseVal (List.replicate k '0' ++ l) = parseVal l := by
  induction k with
  | zero => simp
  | succ k ih =>
    have : List.replicate (k + 1) '0' ++ l = '0' :: (List.replicate k '0' ++ l) := by
      simp [List.replicate_succ]
    rw [this]
    show parseVal ('0' :: (List.replicate k '0' ++ l)) = parseVal l
    simp only [parseVal, List.foldl_cons] at *
    have h0 : (10 * 0 + ('0'.toNat - 48)) = 0 := by decide
    simpa [h0] using ih

theorem parseDigits_pad6 (n : Nat) : parseDigits (natStrPad6 n) = some n := by
  rw [natStrPad6, parseDigits, if_pos, parseVal_zeros, parseVal_natStr]
  constructor
  · intro h
    exact natStr_ne_nil n (List.append_eq_nil.mp h).2
  · rw [List.all_append]
    refine (Bool.and_eq_true ..).mpr ⟨?_, natStr_all_digit n⟩
    rw [List.all_eq_true]
    intro c hc
    rw [List.eq_of_mem_replicate hc]
    decide

theorem pad6_all_digit (n : Nat) : (natStrPad6 n).all Char.isDigit = true := by
  rw [natStrPad6, List.all_append]
  refine (Bool.and_eq_true ..).mpr ⟨?_, natStr_all_digit n⟩
  rw [List.all_eq_true]
  intro c hc
  rw [List.eq_of_mem_replicate hc]
  decide

theorem pad6_clean (n : Nat) : cleanField (natStrPad6 n) := by
  intro c hc
  have hd : c.isDigit = true := by
    have := pad6_all_digit n
    rw [List.all_eq_true] at this
    exact this c hc
  exact ⟨isDigit_ne_slash hd, isDigit_ne_nl hd⟩

theorem pad6_no_uscore (n : Nat) : ∀ c ∈ natStrPad6 n, c ≠ '_' := by
  intro c hc
  have hd : c.isDigit = true := by
    have := pad6_all_digit n
    rw [List.all_eq_true] at this
    exact this c hc
  exact isDigit_ne_uscore hd

/-! ## Lemmas: list splitting helpers -/

theorem takeWhile_field {p : Char → Bool} {w : PyStr} (x : Char) (t : PyStr)
    (hw : ∀ c ∈ w, p c = true) (hx : p x = false) :
    (w ++ x :: t).takeWhile p = w := by
  induction w with
  | nil => simp [List.takeWhile, hx]
  | cons a w ih =>
    have ha : p a = true := hw a (by simp)
    simp only [List.cons_append, List.takeWhile_cons, ha]
    simp [ih (fun c hc => hw c (by simp [hc]))]

theorem dropWhile_field {p : Char → Bool} {w : PyStr} (x : Char) (t : PyStr)
    (hw : ∀ c ∈ w, p c = true) (hx : p x = false) :
    (w ++ x :: t).dropWhile p = x :: t := by
  induction w with
  | nil => simp [List.dropWhile, hx]
  | cons a w ih =>
    have ha : p a = true := hw a (by simp)
    simp only [List.cons_append, List.dropWhile_cons, ha]
    simp [ih (fun c hc => hw c (by simp [hc]))]

theorem splitOnChar_sep {sep : Char} {w : PyStr} (t : PyStr)
    (hw : ∀ c ∈ w, c ≠ sep) :
    splitOnChar sep (w ++ sep :: t) = w :: splitOnChar sep t := by
  induction w with
  | nil => simp [splitOnChar]
  | cons a w ih =>
    have ha : a ≠ sep := hw a (by simp)
    simp only [List.cons_append, splitOnChar, if_neg ha, List.append_eq]
    rw [ih (fun c hc => hw c (by simp [hc]))]

theorem splitOnChar_no {sep : Char} {w : PyStr} (hw : ∀ c ∈ w, c ≠ sep) :
    splitOnChar sep w = [w] := by
  induction w with
  | nil => rfl
  | cons a w ih =>
    have ha : a ≠ sep := hw a (by simp)
    simp only [splitOnChar, if_neg ha]
    rw [ih (fun c hc => hw c (by simp [hc]))]

/-! ## Lemmas: the backtracking matcher on well-formed paths -/

theorem greedyRun_hit (attempt : PyStr → PyStr → Option REnv) (m : Nat)
    (accRev s : PyStr) (r : REnv) (h : attempt accRev.reverse s = some r) :
    greedyRun attempt m accRev s = some r := by
  cases accRev with
  | nil => rw [greedyRun]; simp only [List.reverse_nil] at h; rw [h]
  | cons a accRev' => rw [greedyRun, h]

theorem greedyRun_step (attempt : PyStr → PyStr → Option REnv) (m : Nat)
    (a : Char) (accRev' s : PyStr)
    (h : attempt (a :: accRev').reverse s = none) (hm : m < accRev'.length + 1) :
    greedyRun attempt m (a :: accRev') s = greedyRun attempt m accRev' (a :: s) := by
  cases h2 : attempt (a :: accRev').reverse s with
  | some r => rw [h] at h2; cases h2
  | none => rw [greedyRun, h2]; rw [if_neg (by omega)]

theorem lazyRun_field (rest : List RItem) (s : PyStr) (env : REnv) (cap : Option Nat)
    (k : PyStr → REnv → Option REnv) (r : REnv) :
    ∀ (fld acc : PyStr), cleanField fld →
      mrun rest s (envSet env cap (acc ++ fld)) k = some r →
      lazyRun (fun c => c != '\n')
        (fun captured s' => mrun (.lit '/' :: rest) s' (envSet env cap captured) k)
        acc (fld ++ '/' :: s) = some r
  | [], acc, _, h => by
    simp only [List.nil_append]
    rw [lazyRun]
    simp only [List.append_nil] at h
    simp [mrun, h]
  | c :: fld, acc, hf, h => by
    have hc : c ≠ '/' ∧ c ≠ '\n' := hf c (by simp)
    simp only [List.cons_append]
    rw [lazyRun]
    have hfail : mrun (.lit '/' :: rest) (c :: (fld ++ '/' :: s)) (envSet env cap acc) k
        = none := by
      simp [mrun, hc.1]
    simp only [hfail]
    have hp : (c != '\n') = true := by simp [hc.2]
    rw [hp]
    simp only [if_true]
    have h' : mrun rest s (envSet env cap ((acc ++ [c]) ++ fld)) k = some r := by
      simpa [List.append_assoc] using h
    exact lazyRun_field rest s env cap k r fld (acc ++ [c])
      (fun d hd => hf d (by simp [hd])) h'

theorem star_lazy_field (rest : List RItem) (s : PyStr) (env : REnv) (cap : Option Nat)
    (k : PyStr → REnv → Option REnv) (r : REnv) (fld : PyStr) (hf : cleanField fld)
    (h : mrun rest s (envSet env cap fld) k = some r) :
    mrun (.star true (fun c => c != '\n') cap :: .lit '/' :: rest)
      (fld ++ '/' :: s) env k = some r := by
  have := lazyRun_field rest s env cap k r fld [] hf (by simpa using h)
  simpa [mrun] using this

theorem plus_field (p : Char → Bool) (rest : List RItem) (s : PyStr) (env : REnv)
    (cap : Option Nat) (k : PyStr → REnv → Option REnv) (r : REnv) (D : PyStr)
    (hne : D ≠ []) (hd : ∀ c ∈ D, p c = true) (hslash : p '/' = false)
    (h : mrun rest s (envSet env cap D) k = some r) :
    mrun (.plus p cap :: .lit '/' :: rest) (D ++ '/' :: s) env k = some r := by
  simp only [mrun]
  rw [takeWhile_field '/' s hd hslash, dropWhile_field '/' s hd hslash]
  rw [if_neg (by simpa [List.isEmpty_iff] using hne)]
  apply greedyRun_hit
  rw [List.reverse_reverse]
  simp [mrun, h]

theorem envSet_none (env : REnv) (v : PyStr) : envSet env none v = env := rfl

theorem eatFixed_clsMatch : ∀ (ps : List (Char → Bool)) (w t : PyStr),
    clsMatch ps w = true → eatFixed ps (w ++ t) = some (w, t)
  | [], [], _, _ => rfl
  | [], _ :: _, _, h => by simp [clsMatch] at h
  | _ :: _, [], _, h => by simp [clsMatch] at h
  | p :: ps, a :: w, t, h => by
    simp only [clsMatch, Bool.and_eq_true] at h
    simp only [List.cons_append, eatFixed, if_pos h.1, List.append_eq]
    rw [eatFixed_clsMatch ps w t h.2]
    rfl

theorem tail_other (stem : PyStr) (hne : stem ≠ []) (hns : ∀ c ∈ stem, c ≠ '/')
    (env : REnv) (k : PyStr → REnv → Option REnv) (r : REnv)
    (hk : k ['z'] env = some r) :
    mrun [.plus (fun c => c != '/') none, .lit '.', .lit 'f']
      (stem ++ '.' :: 'f' :: 'z' :: []) env k = some r := by
  have hall : ∀ c ∈ stem ++ '.' :: 'f' :: 'z' :: [], (c != '/') = true := by
    intro c hc
    rcases List.mem_append.mp hc with h1 | h2
    · simp [hns c h1]
    · fin_cases h2 <;> decide
  simp only [mrun]
  rw [List.takeWhile_eq_self_iff.mpr hall, List.dropWhile_eq_nil_iff.mpr hall]
  rw [if_neg (by simp [List.isEmpty_iff])]
  have hrev : (stem ++ '.' :: 'f' :: 'z' :: []).reverse
      = 'z' :: 'f' :: '.' :: stem.reverse := by
    simp
  rw [hrev]
  have hstem : 0 < stem.reverse.length := by
    simp [List.length_pos, hne]
  rw [greedyRun_step _ 1 'z' _ _ (by simp [mrun]) (by simp)]
  rw [greedyRun_step _ 1 'f' _ _ (by simp [mrun]) (by simp)]
  rw [greedyRun_step _ 1 '.' _ _ (by simp [mrun]) (by omega)]
  apply greedyRun_hit
  simp [mrun, envSet_none, hk]

theorem natStr_digit_mem (n : Nat) : ∀ c ∈ natStr n, Char.isDigit c = true := by
  intro c hc
  have := natStr_all_digit n
  rw [List.all_eq_true] at this
  exact this c hc

theorem natStr_ne_slash (n : Nat) : ∀ c ∈ natStr n, c ≠ '/' :=
  fun c hc => (natStr_clean n c hc).1

theorem other_match_eq (I G F : PyStr) (d s e : Nat)
    (hI : cleanField I) (hG : cleanField G) (hF : cleanField F) :
    re_match OTHER_REGEXP (other_path I d G s e F)
      = some [(6, F), (5, natStr e), (4, natStr s), (3, G), (2, natStr d), (1, I)] := by
  unfold re_match OTHER_REGEXP other_path other_fname
  simp only [List.append_assoc, List.cons_append]
  apply star_lazy_field _ _ _ _ _ _ I hI
  apply plus_field Char.isDigit _ _ _ _ _ _ (natStr d) (natStr_ne_nil d)
    (natStr_digit_mem d) (by decide)
  apply star_lazy_field _ _ _ _ _ _ G hG
  apply plus_field Char.isDigit _ _ _ _ _ _ (natStr s) (natStr_ne_nil s)
    (natStr_digit_mem s) (by decide)
  apply star_lazy_field _ _ _ _ _ _ (natStr e) (natStr_clean e)
  apply star_lazy_field _ _ _ _ _ _ F hF
  rw [show I ++ '-' :: (G ++ '-' :: (natStr s ++ '-' :: (natStr e ++ '-' ::
        (F ++ '-' :: (natStr d ++ '.' :: 'f' :: 'z' :: [])))))
      = (I ++ '-' :: (G ++ '-' :: (natStr s ++ '-' :: (natStr e ++ '-' ::
          (F ++ '-' :: natStr d))))) ++ '.' :: 'f' :: 'z' :: [] from by simp]
  apply tail_other
  · simp
  · intro c hc
    simp only [List.mem_append, List.mem_cons] at hc
    rcases hc with h | rfl | h | rfl | h | rfl | h | rfl | h | rfl | h
    · exact (hI c h).1
    · decide
    · exact (hG c h).1
    · decide
    · exact natStr_ne_slash s c h
    · decide
    · exact natStr_ne_slash e c h
    · decide
    · exact (hF c h).1
    · decide
    · exact natStr_ne_slash d c h
  · rfl

theorem lsst_obsid_clean (ab : PyStr) (hab : ∀ c ∈ ab, c ≠ '/' ∧ c ≠ '\n')
    (day seq : Nat) : cleanField (lsst_obs_id ab day seq) := by
  intro c hc
  unfold lsst_obs_id at hc
  simp only [List.mem_append, List.mem_cons] at hc
  rcases hc with (h | rfl | rfl | rfl | h) | rfl | h
  · exact hab c h
  · decide
  · decide
  · decide
  · exact natStr_clean day c h
  · decide
  · exact pad6_clean seq c h

theorem mrun_lit (c : Char) (rest : List RItem) (t : PyStr) (env : REnv)
    (k : PyStr → REnv → Option REnv) :
    mrun (.lit c :: rest) (c :: t) env k = mrun rest t env k := by
  simp [mrun]

theorem mrun_bref (i : Nat) (v : PyStr) (rest : List RItem) (t : PyStr) (env : REnv)
    (k : PyStr → REnv → Option REnv) (henv : envGet env i = some v) :
    mrun (.bref i :: rest) (v ++ t) env k = mrun rest t env k := by
  simp only [mrun, henv]
  rw [List.take_left, if_pos rfl, List.drop_left]

theorem mrun_grpFixed (capI : Nat) (sub : List (Char → Bool)) (w t : PyStr)
    (rest : List RItem) (env : REnv) (k : PyStr → REnv → Option REnv)
    (h : clsMatch sub w = true) :
    mrun (.grpFixed capI sub :: rest) (w ++ t) env k
      = mrun rest t (envSet env (some capI) w) k := by
  simp only [mrun, eatFixed_clsMatch sub w t h]

theorem lsst_tail (obsid rs : PyStr) (hrs : clsMatch RAFT_SENSOR_CLS rs = true)
    (env : REnv) (k : PyStr → REnv → Option REnv) (r : REnv)
    (henv : envGet env 3 = some obsid)
    (hk : k [] (envSet env (some 4) rs) = some r) :
    mrun [.bref 3, .lit '_', .grpFixed 4 RAFT_SENSOR_CLS,
          .lit '.', .lit 'f', .star false (fun c => c != '\n') none, .eos]
      (obsid ++ '_' :: (rs ++ '.' :: 'f' :: 'i' :: 't' :: 's' :: [])) env k
      = some r := by
  rw [mrun_bref 3 obsid _ _ _ _ henv]
  rw [mrun_lit]
  rw [mrun_grpFixed 4 _ rs _ _ _ _ hrs]
  rw [mrun_lit, mrun_lit]
  show greedyRun
      (fun captured s' => mrun [.eos] s'
        (envSet (envSet env (some 4) rs) none captured) k) 0
      (('i' :: 't' :: 's' :: []).takeWhile (fun c => c != '\n')).reverse
      (('i' :: 't' :: 's' :: []).dropWhile (fun c => c != '\n')) = some r
  apply greedyRun_hit
  exact hk

theorem lsst_match_eq (inst ab rs : PyStr) (day seq : Nat)
    (hInst : cleanField inst)
    (hab : ∀ c ∈ ab, c ≠ '/' ∧ c ≠ '\n')
    (hrs : clsMatch RAFT_SENSOR_CLS rs = true) :
    re_match LSST_REGEXP (lsst_path inst day (lsst_obs_id ab day seq) rs)
      = some [(4, rs), (3, lsst_obs_id ab day seq), (2, natStr day), (1, inst)] := by
  have hobs : cleanField (lsst_obs_id ab day seq) := lsst_obsid_clean ab hab day seq
  unfold re_match LSST_REGEXP lsst_path
  simp only [List.append_assoc, List.cons_append]
  apply star_lazy_field _ _ _ _ _ _ inst hInst
  apply plus_field Char.isDigit _ _ _ _ _ _ (natStr day) (natStr_ne_nil day)
    (natStr_digit_mem day) (by decide)
  apply star_lazy_field _ _ _ _ _ _ (lsst_obs_id ab day seq) hobs
  apply lsst_tail _ rs hrs
  · rfl
  · rfl

theorem rs_table_ok (inst : PyStr) :
    (DETECTOR_FROM_RS inst).all (fun pr => rsOk pr.1) = true := by
  unfold DETECTOR_FROM_RS
  split_ifs <;> decide

theorem rs_of_detector (inst : PyStr) (d : Nat) (rs : PyStr)
    (h : DETECTOR_FROM_INT inst d = some rs) : rsOk rs = true := by
  unfold DETECTOR_FROM_INT at h
  cases hf : (DETECTOR_FROM_RS inst).find? (fun pr => pr.2 == d) with
  | none => rw [hf] at h; exact Option.noConfusion h
  | some pr =>
    rw [hf] at h
    injection h with hh
    subst hh
    have hmem : pr ∈ DETECTOR_FROM_RS inst := List.mem_of_find?_eq_some hf
    have := rs_table_ok inst
    rw [List.all_eq_true] at this
    exact this pr hmem

theorem camera_abbrev_props (inst ab : PyStr) (h : CAMERA_ABBREV inst = some ab) :
    cleanField inst ∧ (∀ c ∈ ab, c ≠ '_' ∧ c ≠ '/' ∧ c ≠ '\n') ∧
      inst ∈ LSST_CAMERA_LIST := by
  unfold CAMERA_ABBREV at h
  split_ifs at h with h1 h2 h3 h4
  · injection h with hh; subst hh; subst h1; unfold cleanField; decide
  · injection h with hh; subst hh; subst h2; unfold cleanField; decide
  · injection h with hh; subst hh; subst h3; unfold cleanField; decide
  · injection h with hh; subst hh; subst h4; unfold cleanField; decide

theorem first_component_eq (I rest : PyStr) (hI : ∀ c ∈ I, c ≠ '/') :
    first_component (I ++ '/' :: rest) = some I := by
  unfold first_component
  rw [if_pos (by simp)]
  congr 1
  exact takeWhile_field '/' rest (fun c hc => by simp [hI c hc]) (by decide)

theorem split_obsid (ab : PyStr) (day seq : Nat) (hab : ∀ c ∈ ab, c ≠ '_') :
    splitOnChar '_' (lsst_obs_id ab day seq)
      = [ab, ['O'], natStr day, natStrPad6 seq] := by
  unfold lsst_obs_id
  rw [show ab ++ '_' :: 'O' :: '_' :: natStr day ++ '_' :: natStrPad6 seq
      = ab ++ '_' :: ('O' :: '_' :: (natStr day ++ '_' :: natStrPad6 seq)) from by simp]
  rw [splitOnChar_sep _ hab]
  rw [show ('O' :: '_' :: (natStr day ++ '_' :: natStrPad6 seq))
      = ['O'] ++ '_' :: (natStr day ++ '_' :: natStrPad6 seq) from rfl]
  rw [splitOnChar_sep _ (by decide)]
  rw [splitOnChar_sep _ (natStr_no_uscore day)]
  rw [splitOnChar_no (pad6_no_uscore seq)]

theorem other_path_norm (I : PyStr) (d : Nat) (G : PyStr) (s e : Nat) (F : PyStr) :
    other_path I d G s e F
      = I ++ '/' :: (natStr d ++ '/' :: (G ++ '/' :: (natStr s ++ '/' ::
          (natStr e ++ '/' :: (F ++ '/' :: other_fname I G s e F d))))) := by
  unfold other_path
  simp

theorem lsst_path_norm (inst : PyStr) (day : Nat) (obsid rs : PyStr) :
    lsst_path inst day obsid rs
      = inst ++ '/' :: (natStr day ++ '/' :: (obsid ++ '/' :: (obsid ++ '_' ::
          (rs ++ '.' :: 'f' :: 'i' :: 't' :: 's' :: [])))) := by
  unfold lsst_path
  simp

theorem first_component_other (I : PyStr) (d : Nat) (G : PyStr) (s e : Nat)
    (F : PyStr) (hI : ∀ c ∈ I, c ≠ '/') :
    first_component (other_path I d G s e F) = some I := by
  rw [other_path_norm]
  exact first_component_eq I _ hI

theorem first_component_lsst (inst : PyStr) (day : Nat) (obsid rs : PyStr)
    (hI : ∀ c ∈ inst, c ≠ '/') :
    first_component (lsst_path inst day obsid rs) = some inst := by
  rw [lsst_path_norm]
  exact first_component_eq inst _ hI

/-- Claim C4: for every valid tuple, decoding the path produced by
`get_raw_path` recovers the original fields.  For a non-LSST instrument
(no `/` or newline in the string fields), matching the produced path
against `OTHER_REGEXP` yields back instrument, detector, group, snap,
exposure id and filter, `get_group_id_from_oid` returns the original
group, and `get_exp_id_from_oid` returns the original exposure id; for
an LSST-family instrument (any camera known to `_CAMERA_ABBREV`, any
detector known to `_DETECTOR_FROM_INT`), `get_exp_id_from_oid` applied
to the produced path returns the original exposure id. -/
theorem C4_path_codec_roundtrip
    (I G F : PyStr) (d s e : Nat) (linst ab lrs : PyStr) (ld le : Nat)
    (hIL : ¬ I ∈ LSST_CAMERA_LIST) (hI : cleanField I) (hG : cleanField G)
    (hF : cleanField F)
    (hab : CAMERA_ABBREV linst = some ab)
    (hdet : DETECTOR_FROM_INT linst ld = some lrs) :
    (∃ m, re_match OTHER_REGEXP (other_path I d G s e F) = some m ∧
       envGet m 1 = some I ∧ (envGet m 2).bind parseDigits = some d ∧
       envGet m 3 = some G ∧ (envGet m 4).bind parseDigits = some s ∧
       (envGet m 5).bind parseDigits = some e ∧ envGet m 6 = some F) ∧
    get_raw_path I d G s e F = some (other_path I d G s e F) ∧
    get_exp_id_from_oid (other_path I d G s e F) = some e ∧
    get_group_id_from_oid (other_path I d G s e F) = some G ∧
    (∃ p, get_raw_path linst ld G s le F = some p ∧
       get_exp_id_from_oid p = some le) := by
  have hprops := camera_abbrev_props linst ab hab
  have hmatch := other_match_eq I G F d s e hI hG hF
  refine ⟨⟨_, hmatch, rfl, ?_, rfl, ?_, ?_, rfl⟩, ?_, ?_, ?_, ?_⟩
  · show (some (natStr d)).bind parseDigits = some d
    simp [parseDigits_natStr]
  · show (some (natStr s)).bind parseDigits = some s
    simp [parseDigits_natStr]
  · show (some (natStr e)).bind parseDigits = some e
    simp [parseDigits_natStr]
  · unfold get_raw_path
    rw [if_pos hIL]
  · unfold get_exp_id_from_oid
    rw [first_component_other I d G s e F (fun c hc => (hI c hc).1)]
    simp only [if_pos hIL, hmatch]
    show (some (natStr e)).bind parseDigits = some e
    simp [parseDigits_natStr]
  · unfold get_group_id_from_oid
    rw [first_component_other I d G s e F (fun c hc => (hI c hc).1)]
    simp only [if_pos hIL, hmatch]
    rfl
  · refine ⟨lsst_path linst (le / 100000)
      (lsst_obs_id ab (le / 100000) (le % 100000)) lrs, ?_, ?_⟩
    · unfold get_raw_path
      rw [if_neg (not_not_intro hprops.2.2), hab, hdet]
    · have hrsOk := rs_of_detector linst ld lrs hdet
      rw [rsOk, Bool.and_eq_true] at hrsOk
      have hlmatch := lsst_match_eq linst ab lrs (le / 100000) (le % 100000)
        hprops.1 (fun c hc => ⟨(hprops.2.1 c hc).2.1, (hprops.2.1 c hc).2.2⟩)
        hrsOk.1
      unfold get_exp_id_from_oid
      rw [first_component_lsst linst _ _ lrs (fun c hc => (hprops.1 c hc).1)]
      simp only [if_neg (not_not_intro hprops.2.2), hlmatch,
        show envGet [(4, lrs), (3, lsst_obs_id ab (le / 100000) (le % 100000)),
            (2, natStr (le / 100000)), (1, linst)] 3
          = some (lsst_obs_id ab (le / 100000) (le % 100000)) from rfl,
        split_obsid ab (le / 100000) (le % 100000) (fun c hc => (hprops.2.1 c hc).1),
        parseDigits_natStr, parseDigits_pad6]
      have := Nat.div_add_mod le 100000
      congr 1
      omega

theorem C4_path_codec_roundtrip_witness :
    ("DECam".toList : PyStr) ∉ LSST_CAMERA_LIST ∧
    CAMERA_ABBREV ("LSSTCam".toList) = some ("MC".toList) ∧
    DETECTOR_FROM_INT ("LSSTCam".toList) 95 = some ("R22_S12".toList) ∧
    get_exp_id_from_oid
      (other_path ("DECam".toList) 56 ("g1".toList) 0 411371 ("r".toList))
      = some 411371 ∧
    get_group_id_from_oid
      (other_path ("DECam".toList) 56 ("g1".toList) 0 411371 ("r".toList))
      = some ("g1".toList) :=
  have h := C4_path_codec_roundtrip ("DECam".toList) ("g1".toList) ("r".toList)
    56 0 411371 ("LSSTCam".toList) ("MC".toList) ("R22_S12".toList) 95 2023061700042
    (by decide) (by unfold cleanField; decide) (by unfold cleanField; decide)
    (by unfold cleanField; decide) (by decide) (by decide)
  ⟨by decide, by decide, by decide, h.2.2.1, h.2.2.2.1⟩

/-- Claim C10: in the non-LSST branch of `is_path_consistent`, a path
whose instrument, detector and group match the visit is accepted for ANY
snap index when `visit.nimages == 0`, and exactly for snap indices below
`nimages` when `nimages > 0`. -/
theorem C10_nimages_zero_wildcard
    (I G F : PyStr) (d s e : Nat) (v : FannedOutVisit)
    (hIL : ¬ I ∈ LSST_CAMERA_LIST) (hI : cleanField I) (hG : cleanField G)
    (hF : cleanField F)
    (hIv : I = v.instrument) (hdv : (d : Int) = v.detector) (hGv : G = v.groupId) :
    (v.nimages = 0 → is_path_consistent (other_path I d G s e F) v = true) ∧
    (0 < v.nimages →
      (is_path_consistent (other_path I d G s e F) v = true ↔ (s : Int) < v.nimages)) := by
  have hmatch := other_match_eq I G F d s e hI hG hF
  have hred : is_path_consistent (other_path I d G s e F) v
      = (I == v.instrument && ((d : Int) == v.detector) && (G == v.groupId) &&
          (((s : Int) < v.nimages) || (v.nimages == 0))) := by
    unfold is_path_consistent
    rw [first_component_other I d G s e F (fun c hc => (hI c hc).1)]
    simp only [if_pos hIL, hmatch,
      show envGet [(6, F), (5, natStr e), (4, natStr s), (3, G), (2, natStr d), (1, I)] 1
        = some I from rfl,
      show envGet [(6, F), (5, natStr e), (4, natStr s), (3, G), (2, natStr d), (1, I)] 2
        = some (natStr d) from rfl,
      show envGet [(6, F), (5, natStr e), (4, natStr s), (3, G), (2, natStr d), (1, I)] 3
        = some G from rfl,
      show envGet [(6, F), (5, natStr e), (4, natStr s), (3, G), (2, natStr d), (1, I)] 4
        = some (natStr s) from rfl,
      Option.some_bind, parseDigits_natStr]
  subst hIv
  constructor
  · intro h0
    rw [hred, hdv, hGv]
    simp [h0]
  · intro hpos
    rw [hred, hdv, hGv]
    have hne : (v.nimages == 0) = false := by
      simp only [beq_eq_false_iff_ne]
      omega
    simp [hne, decide_eq_true_iff]

theorem C10_nimages_zero_wildcard_witness :
    ("DECam".toList : PyStr) ∉ LSST_CAMERA_LIST ∧
    is_path_consistent
      (other_path ("DECam".toList) 56 ("g1".toList) 7 411371 ("r".toList))
      ⟨"DECam".toList, 56, "g1".toList, 0, "r".toList, "SURVEY".toList, 0⟩ = true :=
  ⟨by decide,
   (C10_nimages_zero_wildcard ("DECam".toList) ("g1".toList) ("r".toList) 56 7 411371
      ⟨"DECam".toList, 56, "g1".toList, 0, "r".toList, "SURVEY".toList, 0⟩
      (by decide) (by unfold cleanField; decide) (by unfold cleanField; decide)
      (by unfold cleanField; decide) rfl rfl rfl).1 rfl⟩

/-! ## Lemmas: the arrival-watcher loop -/

theorem nodup_insert_pystr (a : PyStr) (l : List PyStr) (h : l.Nodup) :
    (l.insert a).Nodup := by
  by_cases hc : a ∈ l
  · simpa [List.insert, hc] using h
  · have he : List.elem a l = false := by
      rw [← Bool.not_eq_true]
      intro hh
      exact hc (List.elem_iff.mp hh)
    simp only [List.insert, he, if_false, Bool.false_eq_true]
    rw [List.nodup_cons]
    exact ⟨hc, h⟩

theorem record_batch_nodup (v : Visit) :
    ∀ (msgs : List (Option RawGroups)) (ids : List PyStr), ids.Nodup →
      (record_batch v ids msgs).Nodup
  | [], _, h => h
  | m :: msgs, ids, h => by
    unfold record_batch
    rw [List.foldl_cons]
    cases m with
    | none => exact record_batch_nodup v msgs ids h
    | some g =>
      by_cases hm : msg_matches v g
      · simp only [hm, if_true]
        exact record_batch_nodup v msgs (ids.insert g.expid) (nodup_insert_pystr g.expid ids h)
      · simp only [hm, if_false]
        exact record_batch_nodup v msgs ids h

theorem wait_loop_spec (v : Visit) (T : Nat) :
    ∀ (polls : List Poll) (ids : List PyStr) (ex : WatchExit) (s : List PyStr),
      ids.Nodup →
      wait_loop v T ids polls = some (ex, s) →
      s.Nodup ∧ (ex = .complete ↔ (s.length : Int) ≥ v.snaps) ∧
        (ex = .timedOut → ∃ p ∈ polls, p.messages = [] ∧ T ≤ p.elapsed)
  | [], ids, ex, s, hids, h => by
    rw [wait_loop] at h
    split at h
    · rename_i hge
      injection h with h2
      injection h2 with hex hs
      subst hex
      subst hs
      exact ⟨hids, by simpa using hge, by intro hto; exact WatchExit.noConfusion hto⟩
    · exact Option.noConfusion h
  | p :: rest, ids, ex, s, hids, h => by
    rw [wait_loop] at h
    split at h
    · rename_i hge
      injection h with h2
      injection h2 with hex hs
      subst hex
      subst hs
      exact ⟨hids, by simpa using hge, by intro hto; exact WatchExit.noConfusion hto⟩
    · rename_i hlt
      split at h
      · rename_i hempty
        split at h
        · have := wait_loop_spec v T rest ids ex s hids h
          refine ⟨this.1, this.2.1, ?_⟩
          intro hto
          obtain ⟨q, hq, hqprop⟩ := this.2.2 hto
          exact ⟨q, List.mem_cons_of_mem p hq, hqprop⟩
        · rename_i htime
          injection h with h2
          injection h2 with hex hs
          subst hex
          subst hs
          refine ⟨hids, ?_, ?_⟩
          · constructor
            · intro hc; exact WatchExit.noConfusion hc
            · intro hge; exact absurd hge hlt
          · intro _
            exact ⟨p, List.mem_cons_self p rest,
              List.isEmpty_iff.mp hempty, by omega⟩
      · have := wait_loop_spec v T rest (record_batch v ids p.messages) ex s
          (record_batch_nodup v p.messages ids hids) h
        refine ⟨this.1, this.2.1, ?_⟩
        intro hto
        obtain ⟨q, hq, hqprop⟩ := this.2.2 hto
        exact ⟨q, List.mem_cons_of_mem p hq, hqprop⟩

/-- Claim C3: for the watcher loop with expected snap count `n ≥ 1` and a
deduplicated starting id set, every terminating run satisfies: the exit
is COMPLETE exactly when the number of distinct recorded exposure ids has
reached `n` (ids are recorded at most once each, even under duplicate
delivery across poll batches); the exit is TIMED_OUT only when some poll
returned zero notifications with at least the configured timeout elapsed;
consequently a run in which every empty poll happened before the timeout
never exits TIMED_OUT, i.e. it exits COMPLETE. -/
theorem C3_watcher_termination (v : Visit) (T : Nat) (polls : List Poll)
    (ids0 : List PyStr) (ex : WatchExit) (s : List PyStr)
    (hn : 1 ≤ v.snaps) (hids : ids0.Nodup)
    (h : wait_loop v T ids0 polls = some (ex, s)) :
    s.Nodup ∧
    (ex = .complete ↔ (s.length : Int) ≥ v.snaps) ∧
    (ex = .timedOut → ∃ p ∈ polls, p.messages = [] ∧ T ≤ p.elapsed) ∧
    ((∀ p ∈ polls, p.messages = [] → p.elapsed < T) → ex = .complete) := by
  have hspec := wait_loop_spec v T polls ids0 ex s hids h
  refine ⟨hspec.1, hspec.2.1, hspec.2.2, ?_⟩
  intro hall
  cases ex with
  | complete => rfl
  | timedOut =>
    obtain ⟨p, hp, hempty, htime⟩ := hspec.2.2 rfl
    have := hall p hp hempty
    omega

theorem C3_watcher_termination_witness :
    (1 : Int) ≤ 2 ∧ ([] : List PyStr).Nodup ∧
    wait_loop ⟨"i".toList, 5, "g".toList, 2⟩ 50 []
      [⟨10, [some ⟨"i".toList, 5, "g".toList, 0, "e1".toList⟩]⟩,
       ⟨20, [some ⟨"i".toList, 5, "g".toList, 0, "e1".toList⟩,
             some ⟨"i".toList, 5, "g".toList, 1, "e2".toList⟩]⟩]
      = some (.complete, ["e2".toList, "e1".toList]) ∧
    (["e2".toList, "e1".toList] : List PyStr).Nodup :=
  ⟨by decide, by decide, by decide,
   (C3_watcher_termination ⟨"i".toList, 5, "g".toList, 2⟩ 50
      [⟨10, [some ⟨"i".toList, 5, "g".toList, 0, "e1".toList⟩]⟩,
       ⟨20, [some ⟨"i".toList, 5, "g".toList, 0, "e1".toList⟩,
             some ⟨"i".toList, 5, "g".toList, 1, "e2".toList⟩]⟩]
      [] .complete (["e2".toList, "e1".toList])
      (by decide) (by decide) (by decide)).1⟩

/-! ## Lemmas: pipeline selector config -/

theorem find?_append_of_none {α : Type} (p : α → Bool) :
    ∀ (pre l2 : List α), (∀ m ∈ pre, p m = false) →
      (pre ++ l2).find? p = l2.find? p
  | [], _, _ => rfl
  | a :: pre, l2, h => by
    rw [List.cons_append, List.find?_cons_of_neg _ (by simp [h a (by simp)])]
    exact find?_append_of_none p pre l2 (fun m hm => h m (by simp [hm]))

/-- Claim C7: pipeline selection resolves a visit to the pipeline list of
the first rule whose survey predicate matches (a rule with no survey
constraint matches any visit; later rules are not considered), errors
when no rule matches, and construction of an empty config is rejected;
in particular rules `[(survey=S1 -> [p1]), (survey=None -> [p2])]`
resolve a visit with survey `S1` to `[p1]` and any other visit to `[p2]`. -/
theorem C7_pipeline_selector (normalize : PyStr → PyStr)
    (specs pre post : List SpecNode) (node : SpecNode)
    (v v1 v2 : FannedOutVisit) (s1 p1 p2 : PyStr) :
    (specs = pre ++ node :: post → (∀ m ∈ pre, m.matchesVisit v = false) →
       node.matchesVisit v = true →
       get_pipeline_files specs v = .ok node.filenames) ∧
    (node.survey = none → node.matchesVisit v = true) ∧
    ((∀ n ∈ specs, n.matchesVisit v = false) →
       get_pipeline_files specs v = .error ("Unsupported survey".toList)) ∧
    (PipelinesConfig.construct normalize []
       = .error ("Must configure at least one pipeline.".toList)) ∧
    (v1.survey = s1 → v2.survey ≠ s1 →
       get_pipeline_files [⟨[p1], some s1⟩, ⟨[p2], none⟩] v1 = .ok [p1] ∧
       get_pipeline_files [⟨[p1], some s1⟩, ⟨[p2], none⟩] v2 = .ok [p2]) := by
  refine ⟨?_, ?_, ?_, rfl, ?_⟩
  · intro hspecs hpre hnode
    unfold get_pipeline_files
    rw [hspecs, find?_append_of_none _ pre _ hpre,
        @List.find?_cons_of_pos _ (fun m => SpecNode.matchesVisit m v) node post hnode]
  · intro hnone
    unfold SpecNode.matchesVisit
    rw [hnone]
  · intro hall
    unfold get_pipeline_files
    rw [List.find?_eq_none.mpr (fun n hn => by simp [hall n hn])]
  · intro hv1 hv2
    have hpos1 : SpecNode.matchesVisit ⟨[p1], some s1⟩ v1 = true := by
      show (s1 == v1.survey) = true
      rw [hv1]
      simp
    have hne : SpecNode.matchesVisit ⟨[p1], some s1⟩ v2 = false := by
      show (s1 == v2.survey) = false
      simp only [beq_eq_false_iff_ne]
      exact fun he => hv2 he.symm
    constructor
    · unfold get_pipeline_files
      rw [@List.find?_cons_of_pos _ (fun m => SpecNode.matchesVisit m v1)
            ⟨[p1], some s1⟩ [⟨[p2], none⟩] hpos1]
    · unfold get_pipeline_files
      rw [@List.find?_cons_of_neg _ (fun m => SpecNode.matchesVisit m v2)
            ⟨[p1], some s1⟩ [⟨[p2], none⟩] (by simp [hne]),
          @List.find?_cons_of_pos _ (fun m => SpecNode.matchesVisit m v2)
            ⟨[p2], none⟩ [] rfl]

theorem C7_pipeline_selector_witness :
    (("S1".toList : PyStr) = "S1".toList) ∧
    (("other".toList : PyStr) ≠ "S1".toList) ∧
    get_pipeline_files
      [⟨["p1".toList], some ("S1".toList)⟩, ⟨["p2".toList], none⟩]
      ⟨"DECam".toList, 5, "g".toList, 1, "r".toList, "S1".toList, 0⟩
      = .ok ["p1".toList] ∧
    get_pipeline_files
      [⟨["p1".toList], some ("S1".toList)⟩, ⟨["p2".toList], none⟩]
      ⟨"DECam".toList, 5, "g".toList, 1, "r".toList, "other".toList, 0⟩
      = .ok ["p2".toList] :=
  have h := (C7_pipeline_selector id [] [] [] ⟨[], none⟩
    ⟨"DECam".toList, 5, "g".toList, 1, "r".toList, "S1".toList, 0⟩
    ⟨"DECam".toList, 5, "g".toList, 1, "r".toList, "S1".toList, 0⟩
    ⟨"DECam".toList, 5, "g".toList, 1, "r".toList, "other".toList, 0⟩
    ("S1".toList) ("p1".toList) ("p2".toList)).2.2.2.2 rfl (by decide)
  ⟨rfl, by decide, h.1, h.2⟩

theorem expand_config_error (normalize : PyStr → PyStr) :
    ∀ (config : List ConfigNode) (node : ConfigNode), node ∈ config →
      (∃ e, mkSpecNode normalize node = .error e) →
      ∃ e2, expand_config normalize config = .error e2
  | [], node, hx, _ => absurd hx (List.not_mem_nil node)
  | a :: l, node, hx, ⟨e, he⟩ => by
    rcases List.mem_cons.mp hx with rfl | hmem
    · refine ⟨e, ?_⟩
      unfold expand_config
      rw [he]
      rfl
    · cases hfa : mkSpecNode normalize a with
      | error e3 =>
        refine ⟨e3, ?_⟩
        unfold expand_config
        rw [hfa]
        rfl
      | ok b =>
        obtain ⟨e2, he2⟩ := expand_config_error normalize l node hmem ⟨e, he⟩
        refine ⟨e2, ?_⟩
        unfold expand_config
        rw [hfa]
        show (expand_config normalize l).bind _ = _
        rw [he2]
        rfl

/-- Claim C8 is FALSE on the code: two pipeline paths in DIFFERENT rule
nodes may share a base file name, and construction succeeds
(`_check_pipelines` is only applied per node).  Concrete input: the
two-node config `[{pipelines: ["/a/p.yaml"]}, {pipelines: ["/b/p.yaml"]}]`
whose paths share the stem `p`. -/
theorem C8_cross_node_duplicate_accepted :
    pipelineStem ("/a/p.yaml".toList) = pipelineStem ("/b/p.yaml".toList) ∧
    PipelinesConfig.construct id
      [⟨.listVal ["/a/p.yaml".toList], some ("s1".toList)⟩,
       ⟨.listVal ["/b/p.yaml".toList], none⟩]
      = .ok [⟨["/a/p.yaml".toList], some ("s1".toList)⟩,
             ⟨["/b/p.yaml".toList], none⟩] := by
  constructor
  · rfl
  · rfl

/-- Claim C8 amended: construction rejects any config in which two
pipeline paths WITHIN THE SAME rule node share a base file name (the
duplicate check runs per node, not across the whole config). -/
theorem C8_duplicate_stem_within_node_rejected
    (normalize : PyStr → PyStr) (config : List ConfigNode) (node : ConfigNode)
    (fns : List PyStr)
    (hmem : node ∈ config)
    (hparse : parse_pipelines normalize node.pipelines = .ok fns)
    (hdup : ¬ (fns.map pipelineStem).Nodup) :
    ∃ e, PipelinesConfig.construct normalize config = .error e := by
  have hnode : mkSpecNode normalize node
      = .error ("Pipeline names must be unique".toList) := by
    unfold mkSpecNode
    rw [hparse]
    show (check_pipelines fns).bind _ = _
    unfold check_pipelines
    rw [if_neg hdup]
    rfl
  obtain ⟨e2, he2⟩ := expand_config_error normalize config node hmem
    ⟨_, hnode⟩
  refine ⟨e2, ?_⟩
  unfold PipelinesConfig.construct
  rw [if_neg (by simp [List.isEmpty_iff]; exact List.ne_nil_of_mem hmem)]
  exact he2

theorem C8_duplicate_stem_within_node_rejected_witness :
    parse_pipelines id (.listVal ["/a/p.yaml".toList, "/b/p.yaml".toList])
      = .ok ["/a/p.yaml".toList, "/b/p.yaml".toList] ∧
    ¬ ((["/a/p.yaml".toList, "/b/p.yaml".toList] : List PyStr).map
        pipelineStem).Nodup ∧
    ∃ e, PipelinesConfig.construct id
      [⟨.listVal ["/a/p.yaml".toList, "/b/p.yaml".toList], none⟩] = .error e :=
  ⟨rfl, by decide,
   C8_duplicate_stem_within_node_rejected id
     [⟨.listVal ["/a/p.yaml".toList, "/b/p.yaml".toList], none⟩]
     ⟨.listVal ["/a/p.yaml".toList, "/b/p.yaml".toList], none⟩
     ["/a/p.yaml".toList, "/b/p.yaml".toList]
     (by decide) rfl (by decide)⟩

/-- Claim C9 is FALSE on the code: a next-visit request naming an
instrument other than the configured one is NOT answered with an explicit
bad-request (4xx) response; the handler's
`assert expected_visit.instrument == active_instrument.getName()` raises
`AssertionError`, which Flask reports as a 500 server error.  Concrete
input: a well-formed envelope carrying instrument `LSSTCam` handled by a
service configured for `DECam`. -/
theorem C9_instrument_mismatch_counterexample :
    next_visit_validate ("tok".toList) ("DECam".toList)
      ⟨"tok".toList, some ⟨true, some ⟨"LSSTCam".toList, 5, "g".toList, 2⟩⟩⟩
      = .assertionError ∧
    flask_status (next_visit_validate ("tok".toList) ("DECam".toList)
      ⟨"tok".toList, some ⟨true, some ⟨"LSSTCam".toList, 5, "g".toList, 2⟩⟩⟩) = 500 ∧
    flask_status (next_visit_validate ("tok".toList) ("DECam".toList)
      ⟨"tok".toList, some ⟨true, some ⟨"LSSTCam".toList, 5, "g".toList, 2⟩⟩⟩) ≠ 400 := by
  refine ⟨by decide, by decide, by decide⟩

/-- Claim C9 amended: a mismatched instrument in a well-formed envelope
makes the handler raise an assertion error, which surfaces as a 500
server error — unlike malformed envelopes (missing or non-dict message),
which get an explicit 400 bad-request response. -/
theorem C9_instrument_mismatch_amended
    (vt ai : PyStr) (req : InRequest) (env : Envelope) (v : Visit)
    (htok : req.token = vt)
    (henv : req.envelope = some env) (hdict : env.isDict = true)
    (hmsg : env.message = some v)
    (hmismatch : v.instrument ≠ ai) :
    next_visit_validate vt ai req = .assertionError ∧
    flask_status (next_visit_validate vt ai req) = 500 ∧
    (∀ r : InRequest, r.token = vt → r.envelope = none →
       next_visit_validate vt ai r
         = .response ("Bad Request: no Pub/Sub message received".toList) 400) := by
  have hmain : next_visit_validate vt ai req = .assertionError := by
    unfold next_visit_validate
    rw [if_neg (fun hne => hne htok), henv]
    cases env with
    | mk isDict message =>
      simp only at hdict hmsg
      subst hdict
      subst hmsg
      simp only [if_pos hmismatch]
  refine ⟨hmain, by rw [hmain]; rfl, ?_⟩
  intro r hrt hre
  unfold next_visit_validate
  rw [if_neg (fun hne => hne hrt), hre]

theorem C9_instrument_mismatch_amended_witness :
    (("LSSTCam".toList : PyStr) ≠ "DECam".toList) ∧
    next_visit_validate ("tok".toList) ("DECam".toList)
      ⟨"tok".toList, some ⟨true, some ⟨"LSSTCam".toList, 5, "g".toList, 2⟩⟩⟩
      = .assertionError ∧
    flask_status (next_visit_validate ("tok".toList) ("DECam".toList)
      ⟨"tok".toList, some ⟨true, some ⟨"LSSTCam".toList, 5, "g".toList, 2⟩⟩⟩) = 500 :=
  have h := C9_instrument_mismatch_amended ("tok".toList) ("DECam".toList)
    ⟨"tok".toList, some ⟨true, some ⟨"LSSTCam".toList, 5, "g".toList, 2⟩⟩⟩
    ⟨true, some ⟨"LSSTCam".toList, 5, "g".toList, 2⟩⟩
    ⟨"LSSTCam".toList, 5, "g".toList, 2⟩
    rfl rfl rfl rfl (by decide)
  ⟨by decide, h.1, h.2.1⟩

/-- Claim C5: in the set-difference helper `_filter_datasets`, a
destination query failing with `DataIdValueError` is treated exactly as
an empty destination (not propagated); a source-side failure propagates
whenever it is reached; an empty source result raises
`_MissingDatasetError`; and otherwise the result is exactly the source
datasets minus those already present in the destination. -/
theorem C5_filter_datasets_behavior
    (src known : List DS) (e : QueryErr) (destQ : Except QueryErr (List DS)) :
    (filter_datasets (.ok src) (.error .dataIdValueError)
       = filter_datasets (.ok src) (.ok [])) ∧
    ((destQ = .ok known ∨ destQ = .error .dataIdValueError) →
       filter_datasets (.error e : Except QueryErr (List DS)) destQ
         = .error (.raised e)) ∧
    (src = [] → filter_datasets (.ok src) (.ok known) = .error .missingDataset) ∧
    (src ≠ [] → filter_datasets (.ok src) (.ok known)
       = .ok (src.filter (fun r => ¬ r ∈ known))) := by
  refine ⟨rfl, ?_, ?_, ?_⟩
  · rintro (rfl | rfl) <;> rfl
  · rintro rfl
    rfl
  · intro hne
    show (if src.isEmpty = true then (.error .missingDataset : Except FilterErr (List DS))
          else .ok (src.filter (fun r => ¬ r ∈ known)))
        = .ok (src.filter (fun r => ¬ r ∈ known))
    rw [if_neg (by simpa [List.isEmpty_iff] using hne)]

theorem C5_filter_datasets_behavior_witness :
    (([3, 1, 2] : List DS) ≠ []) ∧
    ((.ok [1] : Except QueryErr (List DS)) = .ok [1] ∨
      (.ok [1] : Except QueryErr (List DS)) = .error .dataIdValueError) ∧
    filter_datasets (.ok ([3, 1, 2] : List DS)) (.ok [1])
      = .ok ([3, 1, 2].filter (fun r => ¬ r ∈ ([1] : List DS))) ∧
    filter_datasets (.error .otherErr : Except QueryErr (List DS)) (.ok [1])
      = .error (.raised .otherErr) :=
  have h := C5_filter_datasets_behavior [3, 1, 2] [1] .otherErr (.ok [1])
  ⟨by decide, Or.inl rfl, h.2.2.2 (by decide), h.2.1 (Or.inl rfl)⟩

/-- Claim C6: during workspace preparation, a template query that finds
nothing in the source is recoverable — the missing-dataset error is
caught, skymap data is still exported, the template collection structure
is still exported, and preparation continues to completion — whereas a
calibration query over `(detector, filter)` that finds nothing in the
source raises the distinguishable `_MissingDatasetError`, which
propagates out of `prep_butler` and is fatal to the visit. -/
theorem C6_template_recoverable_calib_fatal
    (refcatQ skymapQ templateQ calibQ : QueryPair DS) (tc : PyStr)
    (refcats skymaps : List DS) (kn : List DS)
    (href : filter_datasets refcatQ.src refcatQ.dest = .ok refcats)
    (hsky : filter_datasets skymapQ.src skymapQ.dest = .ok skymaps)
    (htmpl : filter_datasets templateQ.src templateQ.dest
       = .error .missingDataset)
    (hcd : calibQ.dest = .ok kn) :
    export_skymap_and_templates skymapQ templateQ tc = .ok ⟨skymaps, [tc]⟩ ∧
    (∀ calibs, filter_datasets calibQ.src calibQ.dest = .ok calibs →
       prep_butler refcatQ skymapQ templateQ calibQ tc
         = .ok ⟨refcats, ⟨skymaps, [tc]⟩, calibs⟩) ∧
    (calibQ.src = .ok [] →
       export_calibs calibQ = .error .missingDataset ∧
       prep_butler refcatQ skymapQ templateQ calibQ tc
         = .error .missingDataset) := by
  have hst : export_skymap_and_templates skymapQ templateQ tc
      = .ok ⟨skymaps, [tc]⟩ := by
    unfold export_skymap_and_templates
    rw [hsky, htmpl]
  refine ⟨hst, ?_, ?_⟩
  · intro calibs hcal
    unfold prep_butler
    rw [href]
    show (export_skymap_and_templates skymapQ templateQ tc).bind _ = _
    rw [hst]
    show (export_calibs calibQ).bind _ = _
    unfold export_calibs
    rw [hcal]
    rfl
  · intro hcs
    have hec : export_calibs calibQ = .error .missingDataset := by
      unfold export_calibs filter_datasets
      rw [hcd, hcs]
      rfl
    refine ⟨hec, ?_⟩
    unfold prep_butler
    rw [href]
    show (export_skymap_and_templates skymapQ templateQ tc).bind _ = _
    rw [hst]
    show (export_calibs calibQ).bind _ = _
    rw [hec]
    rfl

theorem C6_template_recoverable_calib_fatal_witness :
    filter_datasets (.ok [7] : Except QueryErr (List DS)) (.ok []) = .ok [7] ∧
    filter_datasets (.ok [] : Except QueryErr (List DS)) (.ok [])
      = .error .missingDataset ∧
    export_skymap_and_templates ⟨.ok [7], .ok []⟩ ⟨.ok [], .ok []⟩
      ("DECam/templates".toList) = .ok ⟨[7], ["DECam/templates".toList]⟩ ∧
    prep_butler ⟨.ok [5], .ok []⟩ ⟨.ok [7], .ok []⟩ ⟨.ok [], .ok []⟩
      ⟨.ok [], .ok []⟩ ("DECam/templates".toList) = .error .missingDataset :=
  have h := C6_template_recoverable_calib_fatal
    ⟨.ok [5], .ok []⟩ ⟨.ok [7], .ok []⟩ ⟨.ok [], .ok []⟩ ⟨.ok [], .ok []⟩
    ("DECam/templates".toList) [5] [7] [] rfl rfl rfl rfl
  ⟨rfl, rfl, h.1, (h.2.2 rfl).2⟩

/-- Claim C1 as stated is internally inconsistent: with the second
calibration window `[2015-03-13, INFINITY)`, the visit timestamped
2050-01-01 does NOT select none — that window contains 2050-01-01, so by
the claim's own rule ("exactly those whose validity range contains the
timestamp") the second window's calibration is selected.  Dates are
encoded as ordered integers (YYYYMMDD). -/
theorem C1_calibration_date_window_counterexample :
    export_calibs_windowed
      ⟨.ok [⟨1, some ⟨some 20150218, some 20150313⟩⟩,
            ⟨2, some ⟨some 20150313, none⟩⟩], .ok []⟩ 20500101
      = .ok [⟨2, some ⟨some 20150313, none⟩⟩] ∧
    export_calibs_windowed
      ⟨.ok [⟨1, some ⟨some 20150218, some 20150313⟩⟩,
            ⟨2, some ⟨some 20150313, none⟩⟩], .ok []⟩ 20500101
      ≠ .ok [] := by
  constructor
  · unfold export_calibs_windowed
    rfl
  · intro h
    rw [show export_calibs_windowed
        ⟨.ok [⟨1, some ⟨some 20150218, some 20150313⟩⟩,
              ⟨2, some ⟨some 20150313, none⟩⟩], .ok []⟩ 20500101
        = .ok [⟨2, some ⟨some 20150313, none⟩⟩] from
        by unfold export_calibs_windowed; rfl] at h
    exact Except.noConfusion h (fun heq => List.noConfusion heq)

/-- Claim C1 amended (spec-modelled: the date-windowed `_export_calibs`
and `_filter_calibs_by_date` are exercised by the tests but not under
`src/`): against an empty destination, the calibration export copies
exactly the source calibrations whose validity range contains the
visit's observation timestamp (unbounded calibrations always pass).
With windows `[2015-02-18, 2015-03-13)` and `[2015-03-13, ...)`, a visit
at 2015-02-20 copies only the first window's calibration; and when every
window has ended before the visit timestamp — as for a 2050-01-01 visit
against the test repository's bounded certification ranges — the export
copies none and returns successfully, without raising.  Dates are
encoded as ordered integers (YYYYMMDD). -/
theorem C1_calibration_date_window
    (srcCal : List CalibDataset) (t : Int) (hsrc : srcCal ≠ []) :
    (export_calibs_windowed ⟨.ok srcCal, .ok []⟩ t
       = .ok (srcCal.filter (fun c =>
           match c.validity with
           | none => true
           | some ts => ts.containsT t))) ∧
    (export_calibs_windowed
       ⟨.ok [⟨1, some ⟨some 20150218, some 20150313⟩⟩,
             ⟨2, some ⟨some 20150313, none⟩⟩], .ok []⟩ 20150220
       = .ok [⟨1, some ⟨some 20150218, some 20150313⟩⟩]) ∧
    (export_calibs_windowed
       ⟨.ok [⟨1, some ⟨some 20150218, some 20150313⟩⟩,
             ⟨2, some ⟨some 20150313, some 20170101⟩⟩], .ok []⟩ 20500101
       = .ok []) := by
  refine ⟨?_, by unfold export_calibs_windowed; rfl,
    by unfold export_calibs_windowed; rfl⟩
  have hdiff : srcCal.filter (fun r => ¬ r ∈ ([] : List CalibDataset)) = srcCal := by
    simp
  unfold export_calibs_windowed
  show (filter_datasets_src (.ok srcCal) ([] : List CalibDataset)).map _ = _
  show (if srcCal.isEmpty = true
        then (.error .missingDataset : Except FilterErr (List CalibDataset))
        else .ok (srcCal.filter (fun r => ¬ r ∈ ([] : List CalibDataset)))).map _ = _
  rw [if_neg (by simpa [List.isEmpty_iff] using hsrc), hdiff]
  rfl

theorem C1_calibration_date_window_witness :
    ([⟨1, some ⟨some 20150218, some 20150313⟩⟩,
      ⟨2, some ⟨some 20150313, none⟩⟩] : List CalibDataset) ≠ [] ∧
    export_calibs_windowed
      ⟨.ok [⟨1, some ⟨some 20150218, some 20150313⟩⟩,
            ⟨2, some ⟨some 20150313, none⟩⟩], .ok []⟩ 20150220
      = .ok [⟨1, some ⟨some 20150218, some 20150313⟩⟩] ∧
    export_calibs_windowed
      ⟨.ok [⟨1, some ⟨some 20150218, some 20150313⟩⟩,
            ⟨2, some ⟨some 20150313, some 20170101⟩⟩], .ok []⟩ 20500101
      = .ok [] :=
  have h := C1_calibration_date_window
    [⟨1, some ⟨some 20150218, some 20150313⟩⟩, ⟨2, some ⟨some 20150313, none⟩⟩]
    20150220 (by decide)
  ⟨by decide, h.2.1, h.2.2⟩

theorem select_pipeline_sound (graph_of : PyStr → List PyStr) :
    ∀ (files : List PyStr) (f : PyStr), select_pipeline graph_of files = some f →
      ∃ pre post, files = pre ++ f :: post ∧
        (∀ g ∈ pre, graph_of g = []) ∧ graph_of f ≠ []
  | [], f, h => Option.noConfusion h
  | a :: rest, f, h => by
    unfold select_pipeline at h
    split at h
    · rename_i hemp
      obtain ⟨pre, post, heq, hpre, hne⟩ := select_pipeline_sound graph_of rest f h
      exact ⟨a :: pre, post, by rw [heq, List.cons_append],
        fun g hg => by
          rcases List.mem_cons.mp hg with rfl | hgm
          · exact List.isEmpty_iff.mp hemp
          · exact hpre g hgm,
        hne⟩
    · rename_i hemp
      injection h with hf
      subst hf
      exact ⟨[], rest, rfl, fun g hg => absurd hg (List.not_mem_nil g),
        fun he => hemp (by simp [he, List.isEmpty_iff])⟩

theorem select_pipeline_none (graph_of : PyStr → List PyStr) :
    ∀ (files : List PyStr), (∀ g ∈ files, graph_of g = []) →
      select_pipeline graph_of files = none
  | [], _ => rfl
  | a :: rest, h => by
    unfold select_pipeline
    rw [if_pos (by simp [List.isEmpty_iff, h a (by simp)])]
    exact select_pipeline_none graph_of rest (fun g hg => h g (by simp [hg]))

/-- Claim C2 (spec-modelled: the multi-candidate fallback loop of
`run_pipeline` is exercised by `test_run_pipeline_fallback_*` but not
under `src/`, which has a single hard-coded pipeline): the runner walks
the configured candidates in priority order and executes exactly the
first one whose computed task graph is non-empty (every earlier candidate
has an empty graph); if every candidate's graph is empty, the invocation
fails with the no-data error and nothing is executed.  In particular,
for three candidates with graphs `[], [n1, n2], [n3]`, only the second
is executed. -/
theorem C2_pipeline_fallback
    (graph_of : PyStr → List PyStr) (files : List PyStr) (f : PyStr)
    (p1 p2 p3 n1 n2 n3 : PyStr) :
    (run_pipeline_fallback graph_of files = .ok f →
       ∃ pre post, files = pre ++ f :: post ∧
         (∀ g ∈ pre, graph_of g = []) ∧ graph_of f ≠ []) ∧
    ((∀ g ∈ files, graph_of g = []) →
       run_pipeline_fallback graph_of files
         = .error ("No data to process.".toList)) ∧
    (∀ gof : PyStr → List PyStr, gof p1 = [] → gof p2 = [n1, n2] →
       gof p3 = [n3] → run_pipeline_fallback gof [p1, p2, p3] = .ok p2) := by
  refine ⟨?_, ?_, ?_⟩
  · intro h
    unfold run_pipeline_fallback at h
    cases hs : select_pipeline graph_of files with
    | none => rw [hs] at h; exact Except.noConfusion h
    | some g =>
      rw [hs] at h
      injection h with hg
      subst hg
      exact select_pipeline_sound graph_of files _ hs
  · intro hall
    unfold run_pipeline_fallback
    rw [select_pipeline_none graph_of files hall]
  · intro gof h1 h2 h3
    unfold run_pipeline_fallback select_pipeline
    rw [if_pos (by simp [h1, List.isEmpty_iff])]
    unfold select_pipeline
    rw [if_neg (by simp [h2, List.isEmpty_iff])]

theorem C2_pipeline_fallback_witness :
    ((fun x => if x = ("p2".toList : PyStr) then ["n1".toList, "n2".toList]
               else if x = ("p3".toList : PyStr) then ["n3".toList]
               else []) ("p1".toList) = []) ∧
    run_pipeline_fallback
      (fun x => if x = ("p2".toList : PyStr) then ["n1".toList, "n2".toList]
                else if x = ("p3".toList : PyStr) then ["n3".toList]
                else [])
      ["p1".toList, "p2".toList, "p3".toList] = .ok ("p2".toList) :=
  ⟨by decide,
   (C2_pipeline_fallback
     (fun x => if x = ("p2".toList : PyStr) then ["n1".toList, "n2".toList]
               else if x = ("p3".toList : PyStr) then ["n3".toList]
               else [])
     [] ("p2".toList) ("p1".toList) ("p2".toList) ("p3".toList)
     ("n1".toList) ("n2".toList) ("n3".toList)).2.2
     (fun x => if x = ("p2".toList : PyStr) then ["n1".toList, "n2".toList]
               else if x = ("p3".toList : PyStr) then ["n3".toList]
               else [])
     (by decide) (by decide) (by decide)⟩
